import Mathlib

/-!
Verification of the resume-builder data-validation and HTML-rendering pipeline.

The Python sources are embedded shallowly: strings are `List Char`,
`str.replace` / `html.escape` / `str.strip` / slicing are modelled as
executable functions on character lists, and the stateful GTK/Flask glue is
reduced to the pure data transformations it performs.
-/

namespace ResumeBuilder

/-- Characters stripped by Python `str.strip()` (the ASCII whitespace set;
CPython also strips some Unicode space characters, which no input in this
development exercises). -/
def isPySpace (c : Char) : Bool :=
  c = ' ' || c = '\t' || c = '\n' || c = '\x0b' || c = '\x0c' || c = '\r'

/-- Python `str.strip()`: drop leading and trailing whitespace. -/
def pyStrip (s : List Char) : List Char :=
  ((s.dropWhile isPySpace).reverse.dropWhile isPySpace).reverse

/-- Python `str.replace(old, new)` for nonempty `old`: scan left to right,
replacing non-overlapping occurrences of `old` by `new`.  The `fuel`
argument only bounds the recursion depth so that the definition is
structural (hence kernel-computable); every step consumes at least one input
character, so any `fuel ≥ s.length` — as passed by `pyReplaceNe` — yields the
complete scan. -/
def pyReplaceFuel (old new : List Char) : Nat → List Char → List Char
  | _, [] => []
  | 0, s => s
  | fuel + 1, c :: rest =>
    if old.isPrefixOf (c :: rest) then
      new ++ pyReplaceFuel old new fuel (rest.drop (old.length - 1))
    else
      c :: pyReplaceFuel old new fuel rest

/-- Python `str.replace(old, new)` for nonempty `old`. -/
def pyReplaceNe (old new s : List Char) : List Char :=
  pyReplaceFuel old new s.length s

/-- Python `str.replace(old, new)`, total: for `old = ""` Python inserts
`new` at every character boundary. -/
def pyReplace (old new s : List Char) : List Char :=
  if old.isEmpty then new ++ s.foldr (fun c acc => c :: (new ++ acc)) []
  else pyReplaceNe old new s

/-- The double-quote character, written by code point to keep string literals
readable. -/
def quoteChar : Char := Char.ofNat 34

/-- The apostrophe character, written by code point. -/
def aposChar : Char := Char.ofNat 39

/-- CPython `html.escape(s, quote=True)` (`html/__init__.py`): five successive
`str.replace` passes, ampersand first, then `<`, `>`, `"`, `'`. -/
def htmlEscape (s : List Char) : List Char :=
  pyReplace [aposChar] "&#x27;".data
    (pyReplace [quoteChar] "&quot;".data
      (pyReplace ['>'] "&gt;".data
        (pyReplace ['<'] "&lt;".data
          (pyReplace ['&'] "&amp;".data s))))

/-- `sanitize_input(text, max_length=10000)` (resume_builder.py:52-56 and the
identical copy web_app.py:51-55): return `""` for falsy input, else truncate
to `max_length` characters, strip surrounding whitespace, HTML-escape. -/
def sanitize_input (text : List Char) (max_length : Nat) : List Char :=
  if text.isEmpty then [] else htmlEscape (pyStrip (text.take max_length))

/-- `escape_text(text)` (resume_builder.py:58-59, html_generator.py:21-23,
web_app.py:57-58): `html.escape(str(text)) if text else ""`. -/
def escape_text (text : List Char) : List Char :=
  if text.isEmpty then [] else htmlEscape text

theorem pyReplace_single (c : Char) (new s : List Char) :
    pyReplace [c] new s = pyReplaceNe [c] new s := rfl

theorem mem_pyReplaceFuel {a : Char} {old new : List Char} :
    ∀ {fuel : Nat} {s : List Char}, a ∈ pyReplaceFuel old new fuel s → a ∈ new ∨ a ∈ s := by
  intro fuel
  induction fuel with
  | zero =>
    intro s
    cases s with
    | nil => simp [pyReplaceFuel]
    | cons c rest =>
      simp only [pyReplaceFuel]
      exact Or.inr
  | succ fuel ih =>
    intro s
    cases s with
    | nil => simp [pyReplaceFuel]
    | cons c rest =>
      simp only [pyReplaceFuel]
      by_cases hp : old.isPrefixOf (c :: rest)
      · rw [if_pos hp]
        intro h
        rcases List.mem_append.mp h with h | h
        · exact Or.inl h
        · rcases ih h with h | h
          · exact Or.inl h
          · exact Or.inr (List.mem_cons_of_mem _ (List.mem_of_mem_drop h))
      · rw [if_neg hp]
        intro h
        rcases List.mem_cons.mp h with h | h
        · exact Or.inr (h ▸ List.mem_cons_self _ _)
        · rcases ih h with h | h
          · exact Or.inl h
          · exact Or.inr (List.mem_cons_of_mem _ h)

theorem mem_pyReplaceNe {a : Char} {old new s : List Char}
    (h : a ∈ pyReplaceNe old new s) : a ∈ new ∨ a ∈ s :=
  mem_pyReplaceFuel h

theorem not_mem_pyReplaceFuel_single {c : Char} {new : List Char} (hc : c ∉ new) :
    ∀ {fuel : Nat} {s : List Char}, s.length ≤ fuel → c ∉ pyReplaceFuel [c] new fuel s := by
  intro fuel
  induction fuel with
  | zero =>
    intro s hs
    have hnil : s = [] := List.length_eq_zero.mp (Nat.le_zero.mp hs)
    subst hnil
    simp [pyReplaceFuel]
  | succ fuel ih =>
    intro s hs
    cases s with
    | nil => simp [pyReplaceFuel]
    | cons d rest =>
      have hr : rest.length ≤ fuel := by
        simpa using Nat.le_of_succ_le_succ (by simpa using hs)
      simp only [pyReplaceFuel]
      by_cases h : c = d
      · subst h
        rw [if_pos (by simp [List.isPrefixOf])]
        simp only [List.length_cons, List.length_nil, Nat.add_sub_cancel, List.drop_zero,
          List.mem_append]
        rintro (hmem | hmem)
        · exact hc hmem
        · exact ih hr hmem
      · rw [if_neg (by simp [List.isPrefixOf]; exact h)]
        intro hmem
        rcases List.mem_cons.mp hmem with h' | h'
        · exact h h'
        · exact ih hr h'

theorem not_mem_pyReplaceNe_single {c : Char} {new : List Char} (hc : c ∉ new)
    {s : List Char} : c ∉ pyReplaceNe [c] new s :=
  not_mem_pyReplaceFuel_single hc (Nat.le_refl _)

theorem pyReplaceFuel_single_of_not_mem {c : Char} {new : List Char} :
    ∀ {fuel : Nat} {s : List Char}, c ∉ s → pyReplaceFuel [c] new fuel s = s := by
  intro fuel
  induction fuel with
  | zero => intro s _; cases s <;> simp [pyReplaceFuel]
  | succ fuel ih =>
    intro s h
    cases s with
    | nil => simp [pyReplaceFuel]
    | cons d rest =>
      simp only [pyReplaceFuel]
      rw [if_neg, ih (fun hm => h (List.mem_cons_of_mem _ hm))]
      simp only [List.isPrefixOf, Bool.and_eq_true, beq_iff_eq, List.isPrefixOf_nil_left,
        and_true]
      intro hcd
      exact h (hcd ▸ List.mem_cons_self _ _)

theorem pyReplaceNe_single_of_not_mem {c : Char} {new : List Char} {s : List Char}
    (h : c ∉ s) : pyReplaceNe [c] new s = s :=
  pyReplaceFuel_single_of_not_mem h

theorem lt_not_mem_htmlEscape (s : List Char) : '<' ∉ htmlEscape s := by
  intro h
  unfold htmlEscape at h
  rw [pyReplace_single, pyReplace_single, pyReplace_single, pyReplace_single,
    pyReplace_single] at h
  rcases mem_pyReplaceNe h with h | h
  · exact absurd h (by decide)
  rcases mem_pyReplaceNe h with h | h
  · exact absurd h (by decide)
  rcases mem_pyReplaceNe h with h | h
  · exact absurd h (by decide)
  exact not_mem_pyReplaceNe_single (by decide) h

theorem gt_not_mem_htmlEscape (s : List Char) : '>' ∉ htmlEscape s := by
  intro h
  unfold htmlEscape at h
  rw [pyReplace_single, pyReplace_single, pyReplace_single, pyReplace_single,
    pyReplace_single] at h
  rcases mem_pyReplaceNe h with h | h
  · exact absurd h (by decide)
  rcases mem_pyReplaceNe h with h | h
  · exact absurd h (by decide)
  exact not_mem_pyReplaceNe_single (by decide) h

theorem quote_not_mem_htmlEscape (s : List Char) : quoteChar ∉ htmlEscape s := by
  intro h
  unfold htmlEscape at h
  rw [pyReplace_single, pyReplace_single, pyReplace_single, pyReplace_single,
    pyReplace_single] at h
  rcases mem_pyReplaceNe h with h | h
  · exact absurd h (by decide)
  exact not_mem_pyReplaceNe_single (by decide) h

theorem apos_not_mem_htmlEscape (s : List Char) : aposChar ∉ htmlEscape s := by
  intro h
  unfold htmlEscape at h
  rw [pyReplace_single, pyReplace_single, pyReplace_single, pyReplace_single,
    pyReplace_single] at h
  exact not_mem_pyReplaceNe_single (by decide) h

/-- A character list containing none of the five HTML-special characters. -/
def CleanText (s : List Char) : Prop :=
  '&' ∉ s ∧ '<' ∉ s ∧ '>' ∉ s ∧ quoteChar ∉ s ∧ aposChar ∉ s

theorem htmlEscape_of_clean {s : List Char} (h : CleanText s) : htmlEscape s = s := by
  obtain ⟨h1, h2, h3, h4, h5⟩ := h
  unfold htmlEscape
  rw [pyReplace_single, pyReplace_single, pyReplace_single, pyReplace_single,
    pyReplace_single, pyReplaceNe_single_of_not_mem h1,
    pyReplaceNe_single_of_not_mem h2, pyReplaceNe_single_of_not_mem h3,
    pyReplaceNe_single_of_not_mem h4, pyReplaceNe_single_of_not_mem h5]

theorem mem_pyStrip {a : Char} {s : List Char} (h : a ∈ pyStrip s) : a ∈ s := by
  unfold pyStrip at h
  rw [List.mem_reverse] at h
  have h1 := (List.dropWhile_sublist isPySpace).subset h
  rw [List.mem_reverse] at h1
  exact (List.dropWhile_sublist isPySpace).subset h1

theorem mem_sanitize_source {a : Char} {t : List Char} {n : Nat}
    (h : a ∈ pyStrip (t.take n)) : a ∈ t :=
  List.take_subset n t (mem_pyStrip h)

theorem pyReplaceFuel_single_replicate (c : Char) (new : List Char) (n : Nat) :
    pyReplaceFuel [c] new n (List.replicate n c) = (List.replicate n new).flatten := by
  induction n with
  | zero => simp [pyReplaceFuel]
  | succ n ih =>
    rw [List.replicate_succ]
    simp only [pyReplaceFuel]
    rw [if_pos (by simp [List.isPrefixOf])]
    simp only [List.length_cons, List.length_nil, Nat.add_sub_cancel, List.drop_zero]
    rw [ih, List.replicate_succ, List.flatten_cons]

theorem pyReplaceNe_single_replicate (c : Char) (new : List Char) (n : Nat) :
    pyReplaceNe [c] new (List.replicate n c) = (List.replicate n new).flatten := by
  unfold pyReplaceNe
  rw [List.length_replicate, pyReplaceFuel_single_replicate]

theorem pyStrip_replicate_amp (n : Nat) :
    pyStrip (List.replicate n '&') = List.replicate n '&' := by
  cases n with
  | zero => rfl
  | succ n =>
    have hsp : isPySpace '&' = false := rfl
    unfold pyStrip
    rw [List.replicate_succ, List.dropWhile_cons, hsp]
    simp only [Bool.false_eq_true, if_false, ← List.replicate_succ,
      List.reverse_replicate]
    rw [List.replicate_succ, List.dropWhile_cons, hsp]
    simp only [Bool.false_eq_true, if_false, ← List.replicate_succ,
      List.reverse_replicate]

theorem not_mem_flatten_replicate {a : Char} {l : List Char} (h : a ∉ l) (n : Nat) :
    a ∉ (List.replicate n l).flatten := by
  intro hm
  rcases List.mem_flatten.mp hm with ⟨l', hl', ha⟩
  rcases List.mem_replicate.mp hl' with ⟨-, rfl⟩
  exact h ha

theorem sanitize_replicate_amp_length (n : Nat) (hn : n ≠ 0) :
    (sanitize_input (List.replicate n '&') n).length = 5 * n := by
  unfold sanitize_input
  rw [if_neg (by simp [List.isEmpty_replicate, hn])]
  rw [List.take_replicate, Nat.min_self, pyStrip_replicate_amp]
  unfold htmlEscape
  rw [pyReplace_single, pyReplace_single, pyReplace_single, pyReplace_single,
    pyReplace_single, pyReplaceNe_single_replicate,
    pyReplaceNe_single_of_not_mem (not_mem_flatten_replicate (by decide) n),
    pyReplaceNe_single_of_not_mem (not_mem_flatten_replicate (by decide) n),
    pyReplaceNe_single_of_not_mem (not_mem_flatten_replicate (by decide) n),
    pyReplaceNe_single_of_not_mem (not_mem_flatten_replicate (by decide) n)]
  simp [List.length_flatten, List.map_replicate, List.sum_replicate, Nat.mul_comm]

/-- C10: the 10000-character cap in `sanitize_input` is applied to the raw
text before HTML-escaping, and escaping expands special characters; an input
of 10000 ampersands yields an output of 50000 characters, so the cap does not
bound the stored string. -/
theorem c10_length_cap_not_preserved_by_escaping :
    (sanitize_input (List.replicate 10000 '&') 10000).length = 50000 ∧
      10000 < (sanitize_input (List.replicate 10000 '&') 10000).length := by
  have h := sanitize_replicate_amp_length 10000 (by norm_num)
  refine ⟨by rw [h], by rw [h]; norm_num⟩

/-- C3 (amended): `sanitize_input` output contains no literal `<`, `>`, `"`
or `'` characters; ampersands do remain in the output (as the first character
of the entities the escape pass introduces). -/
theorem c3_sanitize_strips_markup_chars (t : List Char) :
    '<' ∉ sanitize_input t 10000 ∧ '>' ∉ sanitize_input t 10000 ∧
      quoteChar ∉ sanitize_input t 10000 ∧ aposChar ∉ sanitize_input t 10000 := by
  unfold sanitize_input
  by_cases h : t.isEmpty
  · simp [h]
  · rw [if_neg h]
    exact ⟨lt_not_mem_htmlEscape _, gt_not_mem_htmlEscape _, quote_not_mem_htmlEscape _,
      apos_not_mem_htmlEscape _⟩

theorem sanitize_amp_eval : sanitize_input "&".data 10000 = "&amp;".data := by decide

/-- C3 counterexample: `sanitize_input("&") = "&amp;"` still contains a
literal ampersand, so the sanitizer output is not free of all five special
characters. -/
theorem c3_counterexample_amp_remains : '&' ∈ sanitize_input "&".data 10000 := by
  rw [sanitize_amp_eval]; decide

/-- C4 counterexample: re-escaping the sanitizer output changes it —
`escape_text(sanitize_input("&")) = "&amp;amp;" ≠ "&amp;"`; the escaped
ampersand re-triggers replacement in `html.escape`. -/
theorem c4_counterexample_double_escape :
    escape_text (sanitize_input "&".data 10000) ≠ sanitize_input "&".data 10000 := by
  rw [sanitize_amp_eval]
  decide

/-- C4 (amended): render-time re-escaping leaves the sanitizer output
unchanged exactly for raw texts containing no HTML-special character; inputs
containing `&`, `<`, `>`, `"` or `'` are double-escaped. -/
theorem c4_escape_after_sanitize_id_on_clean (t : List Char) (h : CleanText t) :
    escape_text (sanitize_input t 10000) = sanitize_input t 10000 := by
  unfold sanitize_input
  by_cases he : t.isEmpty
  · rw [if_pos he]; rfl
  · rw [if_neg he]
    have hcl : CleanText (pyStrip (t.take 10000)) :=
      ⟨fun hm => h.1 (mem_sanitize_source hm), fun hm => h.2.1 (mem_sanitize_source hm),
        fun hm => h.2.2.1 (mem_sanitize_source hm),
        fun hm => h.2.2.2.1 (mem_sanitize_source hm),
        fun hm => h.2.2.2.2 (mem_sanitize_source hm)⟩
    rw [htmlEscape_of_clean hcl]
    unfold escape_text
    by_cases hse : (pyStrip (t.take 10000)).isEmpty
    · rw [if_pos hse]
      exact (List.isEmpty_iff.mp hse).symm
    · rw [if_neg hse, htmlEscape_of_clean hcl]

/-- C4 witness: the amended statement applied to the clean input "hello". -/
theorem c4_witness :
    CleanText "hello".data ∧
      escape_text (sanitize_input "hello".data 10000) = sanitize_input "hello".data 10000 :=
  ⟨by constructor <;> decide,
    c4_escape_after_sanitize_id_on_clean "hello".data (by constructor <;> decide)⟩

/-! ## Date and email validators

`validate_date` (resume_builder.py:41-50, web_app.py:40-49) tries
`datetime.strptime(date_string, fmt)` for each entry of `DATE_FORMATS` and
accepts on the first success.  CPython `_strptime` compiles a format string
to a case-insensitive regex — `%Y` is four digits, `%m` is `1[0-2]|0[1-9]|[1-9]`,
`%d` is `3[01]|[12]\d|0[1-9]|[1-9]`, `%b`/`%B` are the C-locale month
names, whitespace in the format matches a nonempty whitespace run, and all
other characters (including the whole format "Present") are literals —
requires the regex to consume the entire input, then constructs the
`datetime`, which raises for a day out of range for the captured month/year.
The model below reproduces this for ASCII input (`\d` would additionally
match non-ASCII decimal digits, which nothing in this development feeds in).
-/

/-- One token of a compiled strptime format: a literal character (matched
case-insensitively), a whitespace run, or one of the directives appearing in
`DATE_FORMATS`. -/
inductive FmtTok where
  | lit (c : Char)
  | ws
  | dirY
  | dirm
  | dirb
  | dirB
  | dird
deriving DecidableEq, Repr

/-- Compile a strptime format string to tokens. Consecutive whitespace
collapses into a single run token (CPython rewrites `\s+` in the format to
the regex `\s+`); an unsupported directive yields `none` (strptime raises a
ValueError for it, which `validate_date`'s loop treats like a non-match). -/
def parseFmt : List Char → Option (List FmtTok)
  | [] => some []
  | '%' :: c :: rest =>
    let tok : Option FmtTok :=
      if c = 'Y' then some .dirY
      else if c = 'm' then some .dirm
      else if c = 'b' then some .dirb
      else if c = 'B' then some .dirB
      else if c = 'd' then some .dird
      else if c = '%' then some (.lit '%')
      else none
    match tok with
    | none => none
    | some t => (parseFmt rest).map (fun ts => t :: ts)
  | ['%'] => none
  | c :: rest =>
    if isPySpace c then
      match parseFmt rest with
      | some (.ws :: ts) => some (.ws :: ts)
      | some ts => some (.ws :: ts)
      | none => none
    else
      (parseFmt rest).map (fun ts => .lit c :: ts)

/-- The captured calendar fields of a strptime match (year, month, day). -/
structure DateCaptures where
  y : Option Nat
  m : Option Nat
  d : Option Nat
deriving DecidableEq, Repr

/-- Numeric value of a digit string (most significant first). -/
def digitsToNat (s : List Char) : Nat :=
  s.foldl (fun a c => a * 10 + (c.toNat - 48)) 0

/-- `%Y`: exactly four decimal digits. -/
def matchYear : List Char → Option (Nat × List Char)
  | c1 :: c2 :: c3 :: c4 :: rest =>
    if c1.isDigit && c2.isDigit && c3.isDigit && c4.isDigit then
      some (digitsToNat [c1, c2, c3, c4], rest)
    else none
  | _ => none

/-- `%m`, regex `1[0-2]|0[1-9]|[1-9]`: every alternative-choice outcome, in
alternation order (the two-character alternatives have disjoint first
characters, so they reduce to one conditional chain). -/
def matchMonthNum (s : List Char) : List (Nat × List Char) :=
  (match s with
   | c1 :: c2 :: rest =>
     if c1 = '1' && '0' ≤ c2 && c2 ≤ '2' then [(10 + (c2.toNat - 48), rest)]
     else if c1 = '0' && '1' ≤ c2 && c2 ≤ '9' then [(c2.toNat - 48, rest)]
     else []
   | _ => []) ++
  (match s with
   | c :: rest => if '1' ≤ c && c ≤ '9' then [(c.toNat - 48, rest)] else []
   | [] => [])

/-- `%d`, regex `3[01]|[12]\d|0[1-9]|[1-9]`: every alternative-choice
outcome, in alternation order (the three two-character alternatives have
disjoint first characters, so they reduce to one conditional chain). -/
def matchDayNum (s : List Char) : List (Nat × List Char) :=
  (match s with
   | c1 :: c2 :: rest =>
     if c1 = '3' && '0' ≤ c2 && c2 ≤ '1' then [(30 + (c2.toNat - 48), rest)]
     else if ('1' ≤ c1 && c1 ≤ '2') && c2.isDigit then
       [((c1.toNat - 48) * 10 + (c2.toNat - 48), rest)]
     else if c1 = '0' && '1' ≤ c2 && c2 ≤ '9' then [(c2.toNat - 48, rest)]
     else []
   | _ => []) ++
  (match s with
   | c :: rest => if '1' ≤ c && c ≤ '9' then [(c.toNat - 48, rest)] else []
   | [] => [])

/-- C-locale abbreviated month names, lowercased (%b matches them
case-insensitively). -/
def monthAbbrevs : List (List Char) :=
  ["jan".data, "feb".data, "mar".data, "apr".data, "may".data, "jun".data,
   "jul".data, "aug".data, "sep".data, "oct".data, "nov".data, "dec".data]

/-- C-locale full month names, lowercased (%B matches them
case-insensitively). -/
def monthNames : List (List Char) :=
  ["january".data, "february".data, "march".data, "april".data, "may".data,
   "june".data, "july".data, "august".data, "september".data, "october".data,
   "november".data, "december".data]

/-- Match one name of `names` (lowercased) case-insensitively as a prefix of
`s`; the captured month is the 1-based index. -/
def matchNameTok (names : List (List Char)) (s : List Char) : List (Nat × List Char) :=
  names.enum.filterMap fun p =>
    if (s.take p.2.length).map Char.toLower = p.2 then
      some (p.1 + 1, s.drop p.2.length)
    else none

/-- All ways `\s+` can consume a nonempty whitespace prefix of `s`. -/
def wsSplits : List Char → List (List Char)
  | [] => []
  | c :: rest => if isPySpace c then rest :: wsSplits rest else []

/-- Run a compiled format against the input, collecting every
(captures, remaining input) pair the backtracking regex engine can reach. -/
def matchToks : List FmtTok → DateCaptures → List Char → List (DateCaptures × List Char)
  | [], caps, s => [(caps, s)]
  | .lit c :: ts, caps, s =>
    match s with
    | d :: rest => if d.toLower = c.toLower then matchToks ts caps rest else []
    | [] => []
  | .ws :: ts, caps, s => (wsSplits s).flatMap fun rest => matchToks ts caps rest
  | .dirY :: ts, caps, s =>
    match matchYear s with
    | some (y, rest) => matchToks ts (DateCaptures.mk (some y) caps.m caps.d) rest
    | none => []
  | .dirm :: ts, caps, s =>
    (matchMonthNum s).flatMap fun p => matchToks ts (DateCaptures.mk caps.y (some p.1) caps.d) p.2
  | .dirb :: ts, caps, s =>
    (matchNameTok monthAbbrevs s).flatMap fun p =>
      matchToks ts (DateCaptures.mk caps.y (some p.1) caps.d) p.2
  | .dirB :: ts, caps, s =>
    (matchNameTok monthNames s).flatMap fun p =>
      matchToks ts (DateCaptures.mk caps.y (some p.1) caps.d) p.2
  | .dird :: ts, caps, s =>
    (matchDayNum s).flatMap fun p => matchToks ts (DateCaptures.mk caps.y caps.m (some p.1)) p.2

/-- Gregorian leap year, as `datetime` uses. -/
def isLeapYear (y : Nat) : Bool :=
  y % 4 = 0 && (y % 100 ≠ 0 || y % 400 = 0)

/-- Days in a month, as `datetime` uses. -/
def daysInMonth (y m : Nat) : Nat :=
  if m = 2 then (if isLeapYear y then 29 else 28)
  else if m = 4 || m = 6 || m = 9 || m = 11 then 30
  else 31

/-- A successful strptime match still constructs a `datetime` from the
captures (missing fields default to 1900-01-01); `MINYEAR = 1` and the day
must exist in the captured month. -/
def capsValidDate (caps : DateCaptures) : Bool :=
  1 ≤ caps.y.getD 1900 && caps.d.getD 1 ≤ daysInMonth (caps.y.getD 1900) (caps.m.getD 1)

/-- `datetime.strptime(s, fmt)` returns rather than raising: the compiled
format matches the whole input and the captured date is constructible. -/
def strptimeOk (fmt s : List Char) : Bool :=
  match parseFmt fmt with
  | none => false
  | some ts =>
    (matchToks ts (DateCaptures.mk none none none) s).any fun p =>
      p.2.isEmpty && capsValidDate p.1

/-- `DATE_FORMATS` (resume_builder.py:32, web_app.py:31). -/
def DATE_FORMATS : List (List Char) :=
  ["%Y".data, "%m/%Y".data, "%b %Y".data, "%Y-%m-%d".data, "%B %Y".data,
   "Present".data]

/-- `validate_date(date_string)` (resume_builder.py:41-50, web_app.py:40-49):
falsy input is accepted; otherwise each format of `DATE_FORMATS` is tried in
order and the first strptime success accepts; `false` models raising
`ValueError("Invalid date format: ...")`. -/
def validate_date (s : List Char) : Bool :=
  if s.isEmpty then true else DATE_FORMATS.any fun fmt => strptimeOk fmt s


theorem char_toNat_ofNat {n : Nat} (h : n.isValidChar) : (Char.ofNat n).toNat = n := by
  rw [Char.ofNat, dif_pos h]; rfl

theorem toLower_eq_fixed {t : Char} (h1 : ¬(97 ≤ t.toNat ∧ t.toNat ≤ 122))
    (h2 : ¬(65 ≤ t.toNat ∧ t.toNat ≤ 90)) (d : Char) : d.toLower = t ↔ d = t := by
  constructor
  · intro h
    simp only [Char.toLower] at h
    split at h
    case isTrue hc =>
      exfalso
      have hv : (d.toNat + 32).isValidChar := Or.inl (by omega)
      have h' := congrArg Char.toNat h
      rw [char_toNat_ofNat hv] at h'
      exact h1 ⟨by omega, by omega⟩
    case isFalse hc => exact h
  · intro h
    subst h
    simp only [Char.toLower]
    split
    case isTrue hc => exact absurd hc h2
    case isFalse hc => rfl

theorem mem_matchToks_nil {caps : DateCaptures} {s : List Char} {p : DateCaptures × List Char} :
    p ∈ matchToks [] caps s ↔ p = (caps, s) := by
  simp [matchToks]

theorem mem_matchToks_lit {c : Char} {ts : List FmtTok} {caps : DateCaptures} {s : List Char}
    {p : DateCaptures × List Char} :
    p ∈ matchToks (.lit c :: ts) caps s ↔
      ∃ d rest, s = d :: rest ∧ d.toLower = c.toLower ∧ p ∈ matchToks ts caps rest := by
  cases s with
  | nil => simp [matchToks]
  | cons d rest =>
    simp only [matchToks]
    by_cases h : d.toLower = c.toLower
    · rw [if_pos h]
      constructor
      · intro hm
        exact ⟨d, rest, rfl, h, hm⟩
      · rintro ⟨d', r', heq, _, hm⟩
        cases heq
        exact hm
    · rw [if_neg h]
      simp only [List.not_mem_nil, false_iff]
      rintro ⟨d', r', heq, hlow, -⟩
      cases heq
      exact h hlow

theorem mem_matchToks_ws {ts : List FmtTok} {caps : DateCaptures} {s : List Char}
    {p : DateCaptures × List Char} :
    p ∈ matchToks (.ws :: ts) caps s ↔ ∃ rest ∈ wsSplits s, p ∈ matchToks ts caps rest := by
  simp [matchToks]

theorem mem_matchToks_dirY {ts : List FmtTok} {caps : DateCaptures} {s : List Char}
    {p : DateCaptures × List Char} :
    p ∈ matchToks (.dirY :: ts) caps s ↔
      ∃ y rest, matchYear s = some (y, rest) ∧
        p ∈ matchToks ts (DateCaptures.mk (some y) caps.m caps.d) rest := by
  cases hmy : matchYear s with
  | none => simp [matchToks, hmy]
  | some q =>
    obtain ⟨y0, r0⟩ := q
    simp only [matchToks, hmy]
    constructor
    · intro hm
      exact ⟨y0, r0, rfl, hm⟩
    · rintro ⟨y, rest, heq, hm⟩
      rw [Option.some.injEq, Prod.mk.injEq] at heq
      obtain ⟨rfl, rfl⟩ := heq
      exact hm

theorem mem_matchToks_dirm {ts : List FmtTok} {caps : DateCaptures} {s : List Char}
    {p : DateCaptures × List Char} :
    p ∈ matchToks (.dirm :: ts) caps s ↔
      ∃ q ∈ matchMonthNum s,
        p ∈ matchToks ts (DateCaptures.mk caps.y (some q.1) caps.d) q.2 := by
  simp [matchToks]

theorem mem_matchToks_dirb {ts : List FmtTok} {caps : DateCaptures} {s : List Char}
    {p : DateCaptures × List Char} :
    p ∈ matchToks (.dirb :: ts) caps s ↔
      ∃ q ∈ matchNameTok monthAbbrevs s,
        p ∈ matchToks ts (DateCaptures.mk caps.y (some q.1) caps.d) q.2 := by
  simp [matchToks]

theorem mem_matchToks_dirB {ts : List FmtTok} {caps : DateCaptures} {s : List Char}
    {p : DateCaptures × List Char} :
    p ∈ matchToks (.dirB :: ts) caps s ↔
      ∃ q ∈ matchNameTok monthNames s,
        p ∈ matchToks ts (DateCaptures.mk caps.y (some q.1) caps.d) q.2 := by
  simp [matchToks]

theorem mem_matchToks_dird {ts : List FmtTok} {caps : DateCaptures} {s : List Char}
    {p : DateCaptures × List Char} :
    p ∈ matchToks (.dird :: ts) caps s ↔
      ∃ q ∈ matchDayNum s,
        p ∈ matchToks ts (DateCaptures.mk caps.y caps.m (some q.1)) q.2 := by
  simp [matchToks]

theorem strptimeOk_iff_exists {fmt s : List Char} {ts : List FmtTok}
    (hp : parseFmt fmt = some ts) :
    strptimeOk fmt s = true ↔
      ∃ p ∈ matchToks ts (DateCaptures.mk none none none) s,
        p.2 = [] ∧ capsValidDate p.1 = true := by
  rw [strptimeOk, hp]
  rw [List.any_eq_true]
  constructor
  · rintro ⟨p, hm, hc⟩
    rw [Bool.and_eq_true, List.isEmpty_iff] at hc
    exact ⟨p, hm, hc⟩
  · rintro ⟨p, hm, h1, h2⟩
    exact ⟨p, hm, by rw [Bool.and_eq_true, List.isEmpty_iff]; exact ⟨h1, h2⟩⟩

theorem one_le_daysInMonth (y m : Nat) : 1 ≤ daysInMonth y m := by
  unfold daysInMonth
  split
  · split <;> omega
  · split <;> omega

theorem mem_wsSplits {s rest : List Char} :
    rest ∈ wsSplits s ↔
      ∃ w, s = w ++ rest ∧ w ≠ [] ∧ ∀ c ∈ w, isPySpace c = true := by
  induction s generalizing rest with
  | nil =>
    simp only [wsSplits, List.not_mem_nil, false_iff]
    rintro ⟨w, heq, hne, -⟩
    exact hne (by cases w <;> simp_all)
  | cons c s' ih =>
    simp only [wsSplits]
    by_cases h : isPySpace c = true
    · rw [if_pos h]
      constructor
      · intro hm
        rcases List.mem_cons.mp hm with hm | hm
        · exact ⟨[c], by rw [hm]; rfl, by simp, by simpa using h⟩
        · rcases ih.mp hm with ⟨w, heq, hne, hall⟩
          refine ⟨c :: w, by rw [List.cons_append, heq], by simp, ?_⟩
          intro d hd
          rcases List.mem_cons.mp hd with hd | hd
          · exact hd ▸ h
          · exact hall d hd
      · rintro ⟨w, heq, hne, hall⟩
        cases w with
        | nil => exact absurd rfl hne
        | cons c0 w' =>
          rw [List.cons_append] at heq
          injection heq with hh1 hh2
          cases w' with
          | nil =>
            rw [List.nil_append] at hh2
            rw [← hh2]
            exact List.mem_cons_self _ _
          | cons c1 w'' =>
            exact List.mem_cons_of_mem _ (ih.mpr ⟨c1 :: w'', hh2, by simp,
              fun d hd => hall d (List.mem_cons_of_mem _ hd)⟩)
    · rw [if_neg h]
      simp only [List.not_mem_nil, false_iff]
      rintro ⟨w, heq, hne, hall⟩
      cases w with
      | nil => exact hne rfl
      | cons c0 w' =>
        rw [List.cons_append] at heq
        injection heq with hh1 hh2
        exact h (hh1 ▸ hall c0 (List.mem_cons_self _ _))

/-- Spec-side token: a four-digit year whose value is a representable
`datetime` year (at least 1). -/
def isYearTok (t : List Char) : Bool :=
  match t with
  | [c1, c2, c3, c4] =>
    c1.isDigit && c2.isDigit && c3.isDigit && c4.isDigit &&
      1 ≤ digitsToNat [c1, c2, c3, c4]
  | _ => false

/-- Spec-side token: a month number as `%m` accepts it (`1`-`9`, `01`-`09`,
`10`-`12`). -/
def isMonthNumTok (t : List Char) : Bool :=
  match t with
  | [c] => '1' ≤ c && c ≤ '9'
  | [c1, c2] =>
    (c1 = '1' && '0' ≤ c2 && c2 ≤ '2') || (c1 = '0' && '1' ≤ c2 && c2 ≤ '9')
  | _ => false

/-- Spec-side token: a day number as `%d` accepts it (`1`-`9`, `01`-`09`,
`10`-`29`, `30`, `31`). -/
def isDayTok (t : List Char) : Bool :=
  match t with
  | [c] => '1' ≤ c && c ≤ '9'
  | [c1, c2] =>
    (c1 = '3' && '0' ≤ c2 && c2 ≤ '1') || (('1' ≤ c1 && c1 ≤ '2') && c2.isDigit) ||
      (c1 = '0' && '1' ≤ c2 && c2 ≤ '9')
  | _ => false

theorem matchYear_eq_some_iff {s rest : List Char} {y : Nat} :
    matchYear s = some (y, rest) ↔
      ∃ c1 c2 c3 c4, s = c1 :: c2 :: c3 :: c4 :: rest ∧
        (c1.isDigit && c2.isDigit && c3.isDigit && c4.isDigit) = true ∧
        y = digitsToNat [c1, c2, c3, c4] := by
  match s with
  | [] => simp [matchYear]
  | [c1] => simp [matchYear]
  | [c1, c2] => simp [matchYear]
  | [c1, c2, c3] => simp [matchYear]
  | c1 :: c2 :: c3 :: c4 :: r =>
    simp only [matchYear]
    by_cases hd : (c1.isDigit && c2.isDigit && c3.isDigit && c4.isDigit) = true
    · rw [if_pos hd]
      constructor
      · intro h
        rw [Option.some.injEq, Prod.mk.injEq] at h
        exact ⟨c1, c2, c3, c4, by rw [h.2], hd, h.1.symm⟩
      · rintro ⟨d1, d2, d3, d4, heq, hd2, hy⟩
        injection heq with e1 heq
        injection heq with e2 heq
        injection heq with e3 heq
        injection heq with e4 heq
        subst e1
        subst e2
        subst e3
        subst e4
        rw [heq, hy]
    · rw [if_neg hd]
      constructor
      · intro h
        exact absurd h (by simp)
      · rintro ⟨d1, d2, d3, d4, heq, hd2, hy⟩
        injection heq with e1 heq
        injection heq with e2 heq
        injection heq with e3 heq
        injection heq with e4 heq
        subst e1
        subst e2
        subst e3
        subst e4
        exact absurd hd2 hd

theorem char_le_iff_toNat {a b : Char} : a ≤ b ↔ a.toNat ≤ b.toNat := by
  rw [Char.le_def, UInt32.le_def]
  exact ⟨fun h => h, fun h => h⟩

theorem char_isDigit_iff {c : Char} : c.isDigit = true ↔ 48 ≤ c.toNat ∧ c.toNat ≤ 57 := by
  simp [Char.isDigit, UInt32.le_def, Char.toNat]
  constructor
  · rintro ⟨h1, h2⟩; exact ⟨h1, h2⟩
  · rintro ⟨h1, h2⟩; exact ⟨h1, h2⟩

theorem digitsToNat_one (c : Char) : digitsToNat [c] = c.toNat - 48 := by
  simp [digitsToNat]

theorem digitsToNat_two (c1 c2 : Char) :
    digitsToNat [c1, c2] = (c1.toNat - 48) * 10 + (c2.toNat - 48) := by
  simp [digitsToNat]

theorem digitsToNat_four (c1 c2 c3 c4 : Char) :
    digitsToNat [c1, c2, c3, c4] =
      ((c1.toNat - 48) * 10 + (c2.toNat - 48)) * 100 +
        (c3.toNat - 48) * 10 + (c4.toNat - 48) := by
  simp [digitsToNat]
  ring

theorem mem_matchMonthNum_iff {s rest : List Char} {m : Nat} :
    (m, rest) ∈ matchMonthNum s ↔
      ∃ t, s = t ++ rest ∧ isMonthNumTok t = true ∧ m = digitsToNat t := by
  constructor
  · intro h
    rcases List.mem_append.mp h with h | h
    · match s with
      | [] => simp at h
      | [c] => simp at h
      | c1 :: c2 :: r =>
        dsimp only at h
        by_cases h1 : (c1 = '1' && '0' ≤ c2 && c2 ≤ '2') = true
        · rw [if_pos h1] at h
          have heq := List.mem_singleton.mp h
          rw [Prod.mk.injEq] at heq
          obtain ⟨hm, hr⟩ := heq
          subst hr
          refine ⟨[c1, c2], rfl, by simp [isMonthNumTok, h1], ?_⟩
          simp only [Bool.and_eq_true, decide_eq_true_eq] at h1
          obtain ⟨⟨hc1, -⟩, -⟩ := h1
          rw [hm, digitsToNat_two, hc1, show ('1' : Char).toNat = 49 from rfl]
        · rw [if_neg h1] at h
          by_cases h2 : (c1 = '0' && '1' ≤ c2 && c2 ≤ '9') = true
          · rw [if_pos h2] at h
            have heq := List.mem_singleton.mp h
            rw [Prod.mk.injEq] at heq
            obtain ⟨hm, hr⟩ := heq
            subst hr
            refine ⟨[c1, c2], rfl, by simp [isMonthNumTok, h2], ?_⟩
            simp only [Bool.and_eq_true, decide_eq_true_eq] at h2
            obtain ⟨⟨hc1, -⟩, -⟩ := h2
            rw [hm, digitsToNat_two, hc1, show ('0' : Char).toNat = 48 from rfl]
            omega
          · rw [if_neg h2] at h
            simp at h
    · match s with
      | [] => simp at h
      | c :: r =>
        dsimp only at h
        by_cases h1 : ('1' ≤ c && c ≤ '9') = true
        · rw [if_pos h1] at h
          have heq := List.mem_singleton.mp h
          rw [Prod.mk.injEq] at heq
          obtain ⟨hm, hr⟩ := heq
          subst hr
          exact ⟨[c], rfl, by simp [isMonthNumTok, h1], by rw [hm, digitsToNat_one]⟩
        · rw [if_neg h1] at h
          simp at h
  · rintro ⟨t, heq, htok, hval⟩
    match t, htok with
    | [], htok => simp [isMonthNumTok] at htok
    | [c], htok =>
      subst heq
      apply List.mem_append.mpr
      right
      simp only [isMonthNumTok] at htok
      simp only [List.cons_append, List.nil_append, htok, if_true, List.mem_singleton,
        Prod.mk.injEq, and_true]
      rw [hval, digitsToNat_one]
    | [c1, c2], htok =>
      subst heq
      apply List.mem_append.mpr
      left
      simp only [isMonthNumTok, Bool.or_eq_true] at htok
      simp only [List.cons_append, List.nil_append]
      rcases htok with h1 | h1
      · rw [if_pos h1]
        simp only [List.mem_singleton, Prod.mk.injEq, and_true]
        simp only [Bool.and_eq_true, decide_eq_true_eq] at h1
        obtain ⟨⟨hc1, -⟩, -⟩ := h1
        rw [hval, digitsToNat_two, hc1, show ('1' : Char).toNat = 49 from rfl]
      · have hne : (c1 = '1' && '0' ≤ c2 && c2 ≤ '2') = false := by
          simp only [Bool.and_eq_true, decide_eq_true_eq] at h1
          simp [h1.1.1]
        rw [hne]
        simp only [Bool.false_eq_true, if_false]
        rw [if_pos h1]
        simp only [List.mem_singleton, Prod.mk.injEq, and_true]
        simp only [Bool.and_eq_true, decide_eq_true_eq] at h1
        obtain ⟨⟨hc1, -⟩, -⟩ := h1
        rw [hval, digitsToNat_two, hc1, show ('0' : Char).toNat = 48 from rfl]
        omega
    | c1 :: c2 :: c3 :: t', htok => simp [isMonthNumTok] at htok

theorem mem_matchDayNum_iff {s rest : List Char} {m : Nat} :
    (m, rest) ∈ matchDayNum s ↔
      ∃ t, s = t ++ rest ∧ isDayTok t = true ∧ m = digitsToNat t := by
  constructor
  · intro h
    rcases List.mem_append.mp h with h | h
    · match s with
      | [] => simp at h
      | [c] => simp at h
      | c1 :: c2 :: r =>
        dsimp only at h
        by_cases h1 : (c1 = '3' && '0' ≤ c2 && c2 ≤ '1') = true
        · rw [if_pos h1] at h
          have heq := List.mem_singleton.mp h
          rw [Prod.mk.injEq] at heq
          obtain ⟨hm, hr⟩ := heq
          subst hr
          refine ⟨[c1, c2], rfl, by simp [isDayTok, h1], ?_⟩
          simp only [Bool.and_eq_true, decide_eq_true_eq] at h1
          obtain ⟨⟨hc1, -⟩, -⟩ := h1
          rw [hm, digitsToNat_two, hc1, show ('3' : Char).toNat = 51 from rfl]
        · rw [if_neg h1] at h
          by_cases h2 : (('1' ≤ c1 && c1 ≤ '2') && c2.isDigit) = true
          · rw [if_pos h2] at h
            have heq := List.mem_singleton.mp h
            rw [Prod.mk.injEq] at heq
            obtain ⟨hm, hr⟩ := heq
            subst hr
            refine ⟨[c1, c2], rfl, ?_, by rw [hm, digitsToNat_two]⟩
            simp only [isDayTok, h2]
            simp
          · rw [if_neg h2] at h
            by_cases h3 : (c1 = '0' && '1' ≤ c2 && c2 ≤ '9') = true
            · rw [if_pos h3] at h
              have heq := List.mem_singleton.mp h
              rw [Prod.mk.injEq] at heq
              obtain ⟨hm, hr⟩ := heq
              subst hr
              refine ⟨[c1, c2], rfl, by simp [isDayTok, h3], ?_⟩
              simp only [Bool.and_eq_true, decide_eq_true_eq] at h3
              obtain ⟨⟨hc1, -⟩, -⟩ := h3
              rw [hm, digitsToNat_two, hc1, show ('0' : Char).toNat = 48 from rfl]
              omega
            · rw [if_neg h3] at h
              simp at h
    · match s with
      | [] => simp at h
      | c :: r =>
        dsimp only at h
        by_cases h1 : ('1' ≤ c && c ≤ '9') = true
        · rw [if_pos h1] at h
          have heq := List.mem_singleton.mp h
          rw [Prod.mk.injEq] at heq
          obtain ⟨hm, hr⟩ := heq
          subst hr
          exact ⟨[c], rfl, by simp [isDayTok, h1], by rw [hm, digitsToNat_one]⟩
        · rw [if_neg h1] at h
          simp at h
  · rintro ⟨t, heq, htok, hval⟩
    match t, htok with
    | [], htok => simp [isDayTok] at htok
    | [c], htok =>
      subst heq
      apply List.mem_append.mpr
      right
      simp only [isDayTok] at htok
      simp only [List.cons_append, List.nil_append, htok, if_true, List.mem_singleton,
        Prod.mk.injEq, and_true]
      rw [hval, digitsToNat_one]
    | [c1, c2], htok =>
      subst heq
      apply List.mem_append.mpr
      left
      have htok' : (c1 = '3' && '0' ≤ c2 && c2 ≤ '1') = true ∨
          (('1' ≤ c1 && c1 ≤ '2') && c2.isDigit) = true ∨
          (c1 = '0' && '1' ≤ c2 && c2 ≤ '9') = true := by
        have hdef : isDayTok [c1, c2] =
            ((c1 = '3' && '0' ≤ c2 && c2 ≤ '1') || (('1' ≤ c1 && c1 ≤ '2') && c2.isDigit) ||
              (c1 = '0' && '1' ≤ c2 && c2 ≤ '9')) := rfl
        rw [hdef, Bool.or_eq_true, Bool.or_eq_true, or_assoc] at htok
        exact htok
      simp only [List.cons_append, List.nil_append]
      rcases htok' with h1 | h1 | h1
      · rw [if_pos h1]
        simp only [List.mem_singleton, Prod.mk.injEq, and_true]
        simp only [Bool.and_eq_true, decide_eq_true_eq] at h1
        obtain ⟨⟨hc1, -⟩, -⟩ := h1
        rw [hval, digitsToNat_two, hc1, show ('3' : Char).toNat = 51 from rfl]
      · have hA : (c1 = '3' && '0' ≤ c2 && c2 ≤ '1') = false := by
          simp only [Bool.and_eq_true, decide_eq_true_eq] at h1
          have : c1 ≠ '3' := by
            intro hc
            subst hc
            exact absurd h1.1.2 (by decide)
          simp [this]
        rw [hA]
        simp only [Bool.false_eq_true, if_false]
        rw [if_pos h1]
        simp only [List.mem_singleton, Prod.mk.injEq, and_true]
        rw [hval, digitsToNat_two]
      · have h0 : c1 = '0' := by
          simp only [Bool.and_eq_true, decide_eq_true_eq] at h1
          exact h1.1.1
        have hA : (c1 = '3' && '0' ≤ c2 && c2 ≤ '1') = false := by
          simp [h0]
        have hB : (('1' ≤ c1 && c1 ≤ '2') && c2.isDigit) = false := by
          subst h0
          simp only [Bool.and_eq_false_iff]
          left
          left
          simp only [decide_eq_false_iff_not]
          decide
        rw [hA]
        simp only [Bool.false_eq_true, if_false]
        rw [hB]
        simp only [Bool.false_eq_true, if_false]
        rw [if_pos h1]
        simp only [List.mem_singleton, Prod.mk.injEq, and_true]
        rw [hval, digitsToNat_two, h0, show ('0' : Char).toNat = 48 from rfl]
        omega
    | c1 :: c2 :: c3 :: t', htok => simp [isDayTok] at htok

theorem mem_matchNameTok {names : List (List Char)} {s rest : List Char} {m : Nat}
    (h : (m, rest) ∈ matchNameTok names s) :
    ∃ b, s = b ++ rest ∧ b.map Char.toLower ∈ names := by
  unfold matchNameTok at h
  rcases List.mem_filterMap.mp h with ⟨⟨i, nm⟩, hmem, hf⟩
  dsimp only at hf
  split at hf
  case isTrue hc =>
    rw [Option.some.injEq, Prod.mk.injEq] at hf
    refine ⟨s.take nm.length, ?_, ?_⟩
    · rw [← hf.2, List.take_append_drop]
    · rw [hc]
      have := List.mk_mem_enum_iff_getElem?.mp hmem
      exact List.getElem?_mem this
  case isFalse => exact absurd hf (by simp)

theorem matchNameTok_complete {names : List (List Char)} {b rest : List Char}
    (hb : b.map Char.toLower ∈ names) :
    ∃ m, (m, rest) ∈ matchNameTok names (b ++ rest) := by
  rcases List.mem_iff_getElem?.mp hb with ⟨i, hi⟩
  refine ⟨i + 1, ?_⟩
  unfold matchNameTok
  apply List.mem_filterMap.mpr
  refine ⟨(i, b.map Char.toLower), List.mk_mem_enum_iff_getElem?.mpr hi, ?_⟩
  dsimp only
  have hlen : (b.map Char.toLower).length = b.length := List.length_map _ _
  rw [if_pos]
  · rw [hlen, List.drop_left]
  · rw [hlen, List.take_left]

theorem strptimeOk_eq_any {fmt : List Char} {ts : List FmtTok}
    (hp : parseFmt fmt = some ts) (s : List Char) :
    strptimeOk fmt s =
      ((matchToks ts (DateCaptures.mk none none none) s).any fun p =>
        p.2.isEmpty && capsValidDate p.1) := by
  unfold strptimeOk
  rw [hp]

theorem matchToks_lit_chain_iff (cs : List Char) (caps : DateCaptures) :
    ∀ s : List Char,
      ((matchToks (cs.map FmtTok.lit) caps s).any fun p =>
        p.2.isEmpty && capsValidDate p.1) = true ↔
        (s.map Char.toLower = cs.map Char.toLower ∧ capsValidDate caps = true) := by
  induction cs with
  | nil =>
    intro s
    cases s with
    | nil => simp [matchToks]
    | cons d rest => simp [matchToks]
  | cons c cs ih =>
    intro s
    cases s with
    | nil => simp [matchToks]
    | cons d rest =>
      simp only [List.map_cons, matchToks]
      by_cases h : d.toLower = c.toLower
      · rw [if_pos h, ih rest]
        constructor
        · rintro ⟨h1, h2⟩
          exact ⟨by rw [h, h1], h2⟩
        · rintro ⟨h1, h2⟩
          injection h1 with e1 e2
          exact ⟨e2, h2⟩
      · rw [if_neg h]
        simp only [List.any_nil, Bool.false_eq_true, false_iff]
        rintro ⟨h1, -⟩
        injection h1 with e1 e2
        exact h e1

/-- The spec pattern: the literal token "Present", matched case-insensitively
as the IGNORECASE-compiled format does. -/
def SpecPresent (s : List Char) : Prop := s.map Char.toLower = "present".data

/-- The spec pattern "year-only (YYYY)". -/
def SpecYearOnly (s : List Char) : Prop := isYearTok s = true

/-- The spec pattern "month/year (MM/YYYY)". -/
def SpecMonthYear (s : List Char) : Prop :=
  ∃ mt yt, s = mt ++ '/' :: yt ∧ isMonthNumTok mt = true ∧ isYearTok yt = true

theorem strptimeOk_present_iff {s : List Char} :
    strptimeOk "Present".data s = true ↔ SpecPresent s := by
  rw [strptimeOk_eq_any
    (by decide : parseFmt "Present".data = some ("Present".data.map FmtTok.lit)) s,
    matchToks_lit_chain_iff]
  rw [show "Present".data.map Char.toLower = "present".data from by decide]
  simp only [show capsValidDate (DateCaptures.mk none none none) = true from by decide,
    and_true]
  exact Iff.rfl

theorem capsValid_y_iff {y : Nat} {m : Option Nat} :
    capsValidDate (DateCaptures.mk (some y) m none) = true ↔ 1 ≤ y := by
  simp only [capsValidDate, Option.getD_some, Option.getD_none, Bool.and_eq_true,
    decide_eq_true_eq]
  constructor
  · exact fun h => h.1
  · intro h
    exact ⟨h, one_le_daysInMonth y (m.getD 1)⟩

theorem strptimeOk_Y_iff {s : List Char} :
    strptimeOk "%Y".data s = true ↔ SpecYearOnly s := by
  rw [strptimeOk_iff_exists (by decide : parseFmt "%Y".data = some [.dirY])]
  constructor
  · rintro ⟨p, hm, hrest, hvalid⟩
    rcases mem_matchToks_dirY.mp hm with ⟨y, rest, hmy, hm2⟩
    have hp := mem_matchToks_nil.mp hm2
    subst hp
    dsimp only at hrest hvalid
    subst hrest
    rcases matchYear_eq_some_iff.mp hmy with ⟨c1, c2, c3, c4, hs, hd, hy⟩
    subst hs
    have hy1 : 1 ≤ y := capsValid_y_iff.mp hvalid
    unfold SpecYearOnly isYearTok
    subst hy
    simp only [Bool.and_eq_true, decide_eq_true_eq] at hd ⊢
    tauto
  · intro htok
    unfold SpecYearOnly at htok
    match s, htok with
    | [c1, c2, c3, c4], htok =>
      simp only [isYearTok, Bool.and_eq_true, decide_eq_true_eq] at htok
      have hle : 1 ≤ digitsToNat [c1, c2, c3, c4] := by tauto
      refine ⟨(DateCaptures.mk (some (digitsToNat [c1, c2, c3, c4])) none none, []),
        ?_, rfl, ?_⟩
      · apply mem_matchToks_dirY.mpr
        refine ⟨digitsToNat [c1, c2, c3, c4], [], ?_, mem_matchToks_nil.mpr rfl⟩
        apply matchYear_eq_some_iff.mpr
        refine ⟨c1, c2, c3, c4, rfl, ?_, rfl⟩
        simp only [Bool.and_eq_true]
        tauto
      · exact capsValid_y_iff.mpr hle

theorem strptimeOk_mY_iff {s : List Char} :
    strptimeOk "%m/%Y".data s = true ↔ SpecMonthYear s := by
  rw [strptimeOk_iff_exists
    (by decide : parseFmt "%m/%Y".data = some [.dirm, .lit '/', .dirY])]
  constructor
  · rintro ⟨p, hm, hrest, hvalid⟩
    rcases mem_matchToks_dirm.mp hm with ⟨q, hq, hm2⟩
    obtain ⟨mv, mrest⟩ := q
    rcases mem_matchToks_lit.mp hm2 with ⟨d, rest2, heqm, hdlow, hm3⟩
    dsimp only at heqm
    rcases mem_matchToks_dirY.mp hm3 with ⟨y, rest3, hmy, hm4⟩
    have hp := mem_matchToks_nil.mp hm4
    subst hp
    dsimp only at hrest hvalid
    subst hrest
    have hd : d = '/' := by
      rw [show ('/' : Char).toLower = '/' from rfl] at hdlow
      exact (toLower_eq_fixed (by decide) (by decide) d).mp hdlow
    subst hd
    rcases mem_matchMonthNum_iff.mp hq with ⟨mt, hs, hmtok, hmval⟩
    rcases matchYear_eq_some_iff.mp hmy with ⟨c1, c2, c3, c4, hy_eq, hdig, hyval⟩
    have hy1 : 1 ≤ y := capsValid_y_iff.mp hvalid
    refine ⟨mt, [c1, c2, c3, c4], ?_, hmtok, ?_⟩
    · rw [hs, heqm, hy_eq]
    · unfold isYearTok
      subst hyval
      simp only [Bool.and_eq_true, decide_eq_true_eq] at hdig ⊢
      tauto
  · rintro ⟨mt, yt, hs, hmtok, hytok⟩
    match yt, hytok with
    | [c1, c2, c3, c4], hytok =>
      subst hs
      simp only [isYearTok, Bool.and_eq_true, decide_eq_true_eq] at hytok
      have hle : 1 ≤ digitsToNat [c1, c2, c3, c4] := by tauto
      refine ⟨(DateCaptures.mk (some (digitsToNat [c1, c2, c3, c4]))
        (some (digitsToNat mt)) none, []), ?_, rfl, ?_⟩
      · apply mem_matchToks_dirm.mpr
        refine ⟨(digitsToNat mt, '/' :: [c1, c2, c3, c4]), ?_, ?_⟩
        · exact mem_matchMonthNum_iff.mpr ⟨mt, rfl, hmtok, rfl⟩
        · apply mem_matchToks_lit.mpr
          refine ⟨'/', [c1, c2, c3, c4], rfl, rfl, ?_⟩
          apply mem_matchToks_dirY.mpr
          refine ⟨digitsToNat [c1, c2, c3, c4], [], ?_, mem_matchToks_nil.mpr rfl⟩
          apply matchYear_eq_some_iff.mpr
          refine ⟨c1, c2, c3, c4, rfl, ?_, rfl⟩
          simp only [Bool.and_eq_true]
          tauto
      · exact capsValid_y_iff.mpr hle
    | [], hytok => exact absurd hytok (by simp [isYearTok])
    | [c1], hytok => exact absurd hytok (by simp [isYearTok])
    | [c1, c2], hytok => exact absurd hytok (by simp [isYearTok])
    | [c1, c2, c3], hytok => exact absurd hytok (by simp [isYearTok])
    | c1 :: c2 :: c3 :: c4 :: c5 :: t', hytok => exact absurd hytok (by simp [isYearTok])

/-- The spec pattern "abbreviated-month year (Mon YYYY)". -/
def SpecMonAbbrevYear (s : List Char) : Prop :=
  ∃ b w yt, s = b ++ w ++ yt ∧ b.map Char.toLower ∈ monthAbbrevs ∧
    w ≠ [] ∧ (∀ c ∈ w, isPySpace c = true) ∧ isYearTok yt = true

/-- The spec pattern "full-month year (Month YYYY)". -/
def SpecMonthFullYear (s : List Char) : Prop :=
  ∃ b w yt, s = b ++ w ++ yt ∧ b.map Char.toLower ∈ monthNames ∧
    w ≠ [] ∧ (∀ c ∈ w, isPySpace c = true) ∧ isYearTok yt = true

/-- The spec pattern "ISO date (YYYY-MM-DD)"; parsing succeeds only when the
day exists in the captured month and year. -/
def SpecISODate (s : List Char) : Prop :=
  ∃ yt mt dt, s = yt ++ '-' :: mt ++ '-' :: dt ∧ isYearTok yt = true ∧
    isMonthNumTok mt = true ∧ isDayTok dt = true ∧
    digitsToNat dt ≤ daysInMonth (digitsToNat yt) (digitsToNat mt)

theorem strptimeOk_bY_iff {s : List Char} :
    strptimeOk "%b %Y".data s = true ↔ SpecMonAbbrevYear s := by
  rw [strptimeOk_iff_exists
    (by decide : parseFmt "%b %Y".data = some [.dirb, .ws, .dirY])]
  constructor
  · rintro ⟨p, hm, hrest, hvalid⟩
    rcases mem_matchToks_dirb.mp hm with ⟨q, hq, hm2⟩
    obtain ⟨mv, mrest⟩ := q
    dsimp only at hm2
    rcases mem_matchToks_ws.mp hm2 with ⟨rest2, hws, hm3⟩
    rcases mem_matchToks_dirY.mp hm3 with ⟨y, rest3, hmy, hm4⟩
    have hp := mem_matchToks_nil.mp hm4
    subst hp
    dsimp only at hrest hvalid
    subst hrest
    rcases mem_matchNameTok hq with ⟨b, hs, hbmem⟩
    rcases mem_wsSplits.mp hws with ⟨w, hw_eq, hwne, hwall⟩
    rcases matchYear_eq_some_iff.mp hmy with ⟨c1, c2, c3, c4, hy_eq, hdig, hyval⟩
    have hy1 : 1 ≤ y := capsValid_y_iff.mp hvalid
    refine ⟨b, w, [c1, c2, c3, c4], ?_, hbmem, hwne, hwall, ?_⟩
    · rw [hs, hw_eq, hy_eq, List.append_assoc]
    · unfold isYearTok
      subst hyval
      simp only [Bool.and_eq_true, decide_eq_true_eq] at hdig ⊢
      tauto
  · rintro ⟨b, w, yt, hs, hbmem, hwne, hwall, hytok⟩
    match yt, hytok with
    | [c1, c2, c3, c4], hytok =>
      subst hs
      rw [List.append_assoc]
      simp only [isYearTok, Bool.and_eq_true, decide_eq_true_eq] at hytok
      have hle : 1 ≤ digitsToNat [c1, c2, c3, c4] := by tauto
      rcases @matchNameTok_complete _ _ (w ++ [c1, c2, c3, c4]) hbmem with ⟨mv, hmem⟩
      refine ⟨(DateCaptures.mk (some (digitsToNat [c1, c2, c3, c4])) (some mv) none, []),
        ?_, rfl, ?_⟩
      · apply mem_matchToks_dirb.mpr
        refine ⟨(mv, w ++ [c1, c2, c3, c4]), hmem, ?_⟩
        apply mem_matchToks_ws.mpr
        refine ⟨[c1, c2, c3, c4], mem_wsSplits.mpr ⟨w, rfl, hwne, hwall⟩, ?_⟩
        apply mem_matchToks_dirY.mpr
        refine ⟨digitsToNat [c1, c2, c3, c4], [], ?_, mem_matchToks_nil.mpr rfl⟩
        apply matchYear_eq_some_iff.mpr
        refine ⟨c1, c2, c3, c4, rfl, ?_, rfl⟩
        simp only [Bool.and_eq_true]
        tauto
      · exact capsValid_y_iff.mpr hle
    | [], hytok => exact absurd hytok (by simp [isYearTok])
    | [c1], hytok => exact absurd hytok (by simp [isYearTok])
    | [c1, c2], hytok => exact absurd hytok (by simp [isYearTok])
    | [c1, c2, c3], hytok => exact absurd hytok (by simp [isYearTok])
    | c1 :: c2 :: c3 :: c4 :: c5 :: t', hytok => exact absurd hytok (by simp [isYearTok])

theorem strptimeOk_BY_iff {s : List Char} :
    strptimeOk "%B %Y".data s = true ↔ SpecMonthFullYear s := by
  rw [strptimeOk_iff_exists
    (by decide : parseFmt "%B %Y".data = some [.dirB, .ws, .dirY])]
  constructor
  · rintro ⟨p, hm, hrest, hvalid⟩
    rcases mem_matchToks_dirB.mp hm with ⟨q, hq, hm2⟩
    obtain ⟨mv, mrest⟩ := q
    dsimp only at hm2
    rcases mem_matchToks_ws.mp hm2 with ⟨rest2, hws, hm3⟩
    rcases mem_matchToks_dirY.mp hm3 with ⟨y, rest3, hmy, hm4⟩
    have hp := mem_matchToks_nil.mp hm4
    subst hp
    dsimp only at hrest hvalid
    subst hrest
    rcases mem_matchNameTok hq with ⟨b, hs, hbmem⟩
    rcases mem_wsSplits.mp hws with ⟨w, hw_eq, hwne, hwall⟩
    rcases matchYear_eq_some_iff.mp hmy with ⟨c1, c2, c3, c4, hy_eq, hdig, hyval⟩
    have hy1 : 1 ≤ y := capsValid_y_iff.mp hvalid
    refine ⟨b, w, [c1, c2, c3, c4], ?_, hbmem, hwne, hwall, ?_⟩
    · rw [hs, hw_eq, hy_eq, List.append_assoc]
    · unfold isYearTok
      subst hyval
      simp only [Bool.and_eq_true, decide_eq_true_eq] at hdig ⊢
      tauto
  · rintro ⟨b, w, yt, hs, hbmem, hwne, hwall, hytok⟩
    match yt, hytok with
    | [c1, c2, c3, c4], hytok =>
      subst hs
      rw [List.append_assoc]
      simp only [isYearTok, Bool.and_eq_true, decide_eq_true_eq] at hytok
      have hle : 1 ≤ digitsToNat [c1, c2, c3, c4] := by tauto
      rcases @matchNameTok_complete _ _ (w ++ [c1, c2, c3, c4]) hbmem with ⟨mv, hmem⟩
      refine ⟨(DateCaptures.mk (some (digitsToNat [c1, c2, c3, c4])) (some mv) none, []),
        ?_, rfl, ?_⟩
      · apply mem_matchToks_dirB.mpr
        refine ⟨(mv, w ++ [c1, c2, c3, c4]), hmem, ?_⟩
        apply mem_matchToks_ws.mpr
        refine ⟨[c1, c2, c3, c4], mem_wsSplits.mpr ⟨w, rfl, hwne, hwall⟩, ?_⟩
        apply mem_matchToks_dirY.mpr
        refine ⟨digitsToNat [c1, c2, c3, c4], [], ?_, mem_matchToks_nil.mpr rfl⟩
        apply matchYear_eq_some_iff.mpr
        refine ⟨c1, c2, c3, c4, rfl, ?_, rfl⟩
        simp only [Bool.and_eq_true]
        tauto
      · exact capsValid_y_iff.mpr hle
    | [], hytok => exact absurd hytok (by simp [isYearTok])
    | [c1], hytok => exact absurd hytok (by simp [isYearTok])
    | [c1, c2], hytok => exact absurd hytok (by simp [isYearTok])
    | [c1, c2, c3], hytok => exact absurd hytok (by simp [isYearTok])
    | c1 :: c2 :: c3 :: c4 :: c5 :: t', hytok => exact absurd hytok (by simp [isYearTok])

theorem capsValid_ymd_iff {y m d : Nat} :
    capsValidDate (DateCaptures.mk (some y) (some m) (some d)) = true ↔
      1 ≤ y ∧ d ≤ daysInMonth y m := by
  simp [capsValidDate]

theorem strptimeOk_Ymd_iff {s : List Char} :
    strptimeOk "%Y-%m-%d".data s = true ↔ SpecISODate s := by
  rw [strptimeOk_iff_exists (by decide :
    parseFmt "%Y-%m-%d".data = some [.dirY, .lit '-', .dirm, .lit '-', .dird])]
  constructor
  · rintro ⟨p, hm, hrest, hvalid⟩
    rcases mem_matchToks_dirY.mp hm with ⟨y, rest1, hmy, hm2⟩
    rcases mem_matchToks_lit.mp hm2 with ⟨d1, rest2, heq1, hdlow1, hm3⟩
    rcases mem_matchToks_dirm.mp hm3 with ⟨q, hq, hm4⟩
    obtain ⟨mv, mrest⟩ := q
    dsimp only at hq hm4
    rcases mem_matchToks_lit.mp hm4 with ⟨d2, rest3, heq2, hdlow2, hm5⟩
    rcases mem_matchToks_dird.mp hm5 with ⟨q2, hq2, hm6⟩
    obtain ⟨dv, drest⟩ := q2
    dsimp only at hq2 hm6
    have hp := mem_matchToks_nil.mp hm6
    subst hp
    dsimp only at hrest hvalid
    subst hrest
    have hd1 : d1 = '-' := by
      rw [show ('-' : Char).toLower = '-' from rfl] at hdlow1
      exact (toLower_eq_fixed (by decide) (by decide) d1).mp hdlow1
    subst hd1
    have hd2 : d2 = '-' := by
      rw [show ('-' : Char).toLower = '-' from rfl] at hdlow2
      exact (toLower_eq_fixed (by decide) (by decide) d2).mp hdlow2
    subst hd2
    rcases matchYear_eq_some_iff.mp hmy with ⟨c1, c2, c3, c4, hs, hdig, hyval⟩
    rcases mem_matchMonthNum_iff.mp hq with ⟨mt, hs2, hmtok, hmval⟩
    rcases mem_matchDayNum_iff.mp hq2 with ⟨dt, hs3, hdtok, hdval⟩
    rw [List.append_nil] at hs3
    rw [capsValid_ymd_iff] at hvalid
    refine ⟨[c1, c2, c3, c4], mt, dt, ?_, ?_, hmtok, hdtok, ?_⟩
    · rw [hs, heq1, hs2, heq2, hs3]
      simp
    · unfold isYearTok
      simp only [Bool.and_eq_true, decide_eq_true_eq] at hdig ⊢
      have := hvalid.1
      rw [hyval] at this
      tauto
    · rw [← hmval, ← hdval, ← hyval]
      exact hvalid.2
  · rintro ⟨yt, mt, dt, hs, hytok, hmtok, hdtok, hday⟩
    match yt, hytok with
    | [c1, c2, c3, c4], hytok =>
      subst hs
      simp only [isYearTok, Bool.and_eq_true, decide_eq_true_eq] at hytok
      have hle : 1 ≤ digitsToNat [c1, c2, c3, c4] := by tauto
      refine ⟨(DateCaptures.mk (some (digitsToNat [c1, c2, c3, c4]))
        (some (digitsToNat mt)) (some (digitsToNat dt)), []), ?_, rfl, ?_⟩
      · apply mem_matchToks_dirY.mpr
        refine ⟨digitsToNat [c1, c2, c3, c4], '-' :: mt ++ '-' :: dt, ?_, ?_⟩
        · apply matchYear_eq_some_iff.mpr
          refine ⟨c1, c2, c3, c4, rfl, ?_, rfl⟩
          simp only [Bool.and_eq_true]
          tauto
        · apply mem_matchToks_lit.mpr
          refine ⟨'-', mt ++ '-' :: dt, rfl, rfl, ?_⟩
          apply mem_matchToks_dirm.mpr
          refine ⟨(digitsToNat mt, '-' :: dt), ?_, ?_⟩
          · exact mem_matchMonthNum_iff.mpr ⟨mt, rfl, hmtok, rfl⟩
          · apply mem_matchToks_lit.mpr
            refine ⟨'-', dt, rfl, rfl, ?_⟩
            apply mem_matchToks_dird.mpr
            refine ⟨(digitsToNat dt, []), ?_, mem_matchToks_nil.mpr rfl⟩
            exact mem_matchDayNum_iff.mpr ⟨dt, (List.append_nil dt).symm, hdtok, rfl⟩
      · exact capsValid_ymd_iff.mpr ⟨hle, hday⟩
    | [], hytok => exact absurd hytok (by simp [isYearTok])
    | [c1], hytok => exact absurd hytok (by simp [isYearTok])
    | [c1, c2], hytok => exact absurd hytok (by simp [isYearTok])
    | [c1, c2, c3], hytok => exact absurd hytok (by simp [isYearTok])
    | c1 :: c2 :: c3 :: c4 :: c5 :: t', hytok => exact absurd hytok (by simp [isYearTok])

theorem validate_date_iff (s : List Char) :
    validate_date s = true ↔
      (s = [] ∨ SpecPresent s ∨ SpecYearOnly s ∨ SpecMonthYear s ∨ SpecMonAbbrevYear s ∨
        SpecISODate s ∨ SpecMonthFullYear s) := by
  unfold validate_date
  by_cases he : s.isEmpty
  · rw [if_pos he]
    simp [List.isEmpty_iff.mp he]
  · rw [if_neg he]
    have hne : ¬(s = []) := fun h => he (by simp [h])
    unfold DATE_FORMATS
    simp only [List.any_cons, List.any_nil, Bool.or_eq_true, Bool.false_eq_true, or_false]
    rw [strptimeOk_Y_iff, strptimeOk_mY_iff, strptimeOk_bY_iff, strptimeOk_Ymd_iff,
      strptimeOk_BY_iff, strptimeOk_present_iff]
    tauto

/-- C9: `validate_date` accepts the empty string and the literal token
"Present" (case-insensitively, as the IGNORECASE-compiled format does), and
otherwise succeeds exactly when the input matches one of the five patterns
year-only, month/year, abbreviated-month year, ISO date, full-month year
(raising InvalidDateFormat when none matches); in particular "2024",
"Jan 2024", "2024-01-15", "Present" succeed and "Not a date" fails. -/
theorem c9_validate_date_characterization :
    (∀ s : List Char, validate_date s = true ↔
      (s = [] ∨ SpecPresent s ∨ SpecYearOnly s ∨ SpecMonthYear s ∨ SpecMonAbbrevYear s ∨
        SpecISODate s ∨ SpecMonthFullYear s)) ∧
      validate_date "".data = true ∧ validate_date "Present".data = true ∧
      validate_date "2024".data = true ∧ validate_date "Jan 2024".data = true ∧
      validate_date "2024-01-15".data = true ∧ validate_date "Not a date".data = false :=
  ⟨validate_date_iff, by decide, by decide, by decide, by decide, by decide, by decide⟩

/-! ## Resume document data model and JSON persistence

`ResumeBuilder.resume_data` (resume_builder.py:93-105) is a dict with the
seven top-level keys; the entry dialogs (`get_data`, resume_builder.py:970-983,
1032-1044, 1083-1091, 1126-1130) fix the per-entry field sets.  Saving runs
`json.dump(self.resume_data, ...)` and loading runs `json.load` followed by
the required-key check (resume_builder.py:544-548); the CPython `json`
module is external to this repository and is modelled as the faithful
serialize/parse pair it documents, i.e. save and load communicate the JSON
value itself. -/

/-- A JSON value, as far as resume data uses JSON. -/
inductive Json where
  | str : List Char → Json
  | arr : List Json → Json
  | obj : List (List Char × Json) → Json

structure Contact where
  website : List Char
  email : List Char
  phone : List Char
deriving DecidableEq

structure ExperienceEntry where
  title : List Char
  company : List Char
  location : List Char
  start_date : List Char
  end_date : List Char
  bullets : List (List Char)
deriving DecidableEq

structure ProjectEntry where
  title : List Char
  subtitle : List Char
  start_date : List Char
  end_date : List Char
  bullets : List (List Char)
deriving DecidableEq

structure EducationEntry where
  degree : List Char
  school : List Char
  location : List Char
  start_date : List Char
  end_date : List Char
  notes : List Char
deriving DecidableEq

structure SkillGroup where
  category : List Char
  skills : List Char
deriving DecidableEq

/-- The seven-key resume document of the data model. -/
structure ResumeDoc where
  name : List Char
  subtitle : List Char
  contact : Contact
  experience : List ExperienceEntry
  projects : List ProjectEntry
  education : List EducationEntry
  skills : List SkillGroup
deriving DecidableEq

def contactToJson (c : Contact) : Json :=
  .obj [("website".data, .str c.website), ("email".data, .str c.email),
    ("phone".data, .str c.phone)]

def expToJson (e : ExperienceEntry) : Json :=
  .obj [("title".data, .str e.title), ("company".data, .str e.company),
    ("location".data, .str e.location), ("start_date".data, .str e.start_date),
    ("end_date".data, .str e.end_date), ("bullets".data, .arr (e.bullets.map .str))]

def projToJson (e : ProjectEntry) : Json :=
  .obj [("title".data, .str e.title), ("subtitle".data, .str e.subtitle),
    ("start_date".data, .str e.start_date), ("end_date".data, .str e.end_date),
    ("bullets".data, .arr (e.bullets.map .str))]

def eduToJson (e : EducationEntry) : Json :=
  .obj [("degree".data, .str e.degree), ("school".data, .str e.school),
    ("location".data, .str e.location), ("start_date".data, .str e.start_date),
    ("end_date".data, .str e.end_date), ("notes".data, .str e.notes)]

def skillToJson (e : SkillGroup) : Json :=
  .obj [("category".data, .str e.category), ("skills".data, .str e.skills)]

/-- The JSON value `on_save_json` writes: the `resume_data` dict in its key
order. -/
def docToJson (d : ResumeDoc) : Json :=
  .obj [("name".data, .str d.name), ("subtitle".data, .str d.subtitle),
    ("contact".data, contactToJson d.contact),
    ("experience".data, .arr (d.experience.map expToJson)),
    ("projects".data, .arr (d.projects.map projToJson)),
    ("education".data, .arr (d.education.map eduToJson)),
    ("skills".data, .arr (d.skills.map skillToJson))]

/-- Python `key in data` for a parsed JSON value: dict key lookup for
objects, element equality for arrays, substring test for strings. -/
def pyContains (j : Json) (k : List Char) : Bool :=
  match j with
  | .obj ps => ps.any fun p => p.1 == k
  | .arr xs => xs.any fun x => match x with | .str s => s == k | _ => false
  | .str s => decide (k <:+: s)

/-- `required_keys` (resume_builder.py:544, web_app.py:492). -/
def required_keys : List (List Char) :=
  ["name".data, "subtitle".data, "contact".data, "experience".data,
   "projects".data, "education".data, "skills".data]

/-- The load path (resume_builder.py:542-548, web_app.py:491-497): after
`json.load`, raise `ValueError(f"Invalid resume data: missing {key}")` for
the first required key not in the data; otherwise the parsed value itself
becomes the new resume data (assigned wholesale, extra keys retained). -/
def on_load_json (j : Json) : Except (List Char) Json :=
  match required_keys.find? (fun k => !(pyContains j k)) with
  | some k => .error ("Invalid resume data: missing ".data ++ k)
  | none => .ok j

def decodeStr : Json → Option (List Char)
  | .str s => some s
  | _ => none

def getKey (ps : List (List Char × Json)) (k : List Char) : Option Json :=
  (ps.find? fun p => p.1 == k).map fun p => p.2

def decodeStrList : Json → Option (List (List Char))
  | .arr xs => xs.mapM decodeStr
  | _ => none

def decodeContact : Json → Option Contact
  | .obj ps => do
    let w ← getKey ps "website".data >>= decodeStr
    let e ← getKey ps "email".data >>= decodeStr
    let p ← getKey ps "phone".data >>= decodeStr
    pure ⟨w, e, p⟩
  | _ => none

def decodeExp : Json → Option ExperienceEntry
  | .obj ps => do
    let t ← getKey ps "title".data >>= decodeStr
    let c ← getKey ps "company".data >>= decodeStr
    let l ← getKey ps "location".data >>= decodeStr
    let s ← getKey ps "start_date".data >>= decodeStr
    let e ← getKey ps "end_date".data >>= decodeStr
    let b ← getKey ps "bullets".data >>= decodeStrList
    pure ⟨t, c, l, s, e, b⟩
  | _ => none

def decodeProj : Json → Option ProjectEntry
  | .obj ps => do
    let t ← getKey ps "title".data >>= decodeStr
    let u ← getKey ps "subtitle".data >>= decodeStr
    let s ← getKey ps "start_date".data >>= decodeStr
    let e ← getKey ps "end_date".data >>= decodeStr
    let b ← getKey ps "bullets".data >>= decodeStrList
    pure ⟨t, u, s, e, b⟩
  | _ => none

def decodeEdu : Json → Option EducationEntry
  | .obj ps => do
    let d ← getKey ps "degree".data >>= decodeStr
    let c ← getKey ps "school".data >>= decodeStr
    let l ← getKey ps "location".data >>= decodeStr
    let s ← getKey ps "start_date".data >>= decodeStr
    let e ← getKey ps "end_date".data >>= decodeStr
    let n ← getKey ps "notes".data >>= decodeStr
    pure ⟨d, c, l, s, e, n⟩
  | _ => none

def decodeSkill : Json → Option SkillGroup
  | .obj ps => do
    let c ← getKey ps "category".data >>= decodeStr
    let s ← getKey ps "skills".data >>= decodeStr
    pure ⟨c, s⟩
  | _ => none

def decodeListWith (f : Json → Option α) : Json → Option (List α)
  | .arr xs => xs.mapM f
  | _ => none

/-- Reading a ResumeDocument back out of a JSON value, field for field, per
the §3 data model. -/
def decodeDoc : Json → Option ResumeDoc
  | .obj ps => do
    let n ← getKey ps "name".data >>= decodeStr
    let u ← getKey ps "subtitle".data >>= decodeStr
    let c ← getKey ps "contact".data >>= decodeContact
    let ex ← getKey ps "experience".data >>= decodeListWith decodeExp
    let pr ← getKey ps "projects".data >>= decodeListWith decodeProj
    let ed ← getKey ps "education".data >>= decodeListWith decodeEdu
    let sk ← getKey ps "skills".data >>= decodeListWith decodeSkill
    pure ⟨n, u, c, ex, pr, ed, sk⟩
  | _ => none

theorem mapM_decode_of_encode {α : Type} (f : α → Json) (dec : Json → Option α)
    (h : ∀ e, dec (f e) = some e) :
    ∀ es : List α, (es.map f).mapM dec = some es := by
  intro es
  induction es with
  | nil => rfl
  | cons e es ih =>
    rw [List.map_cons, List.mapM_cons, h e, ih]
    rfl

theorem decodeStr_encode (s : List Char) : decodeStr (Json.str s) = some s := rfl

theorem decodeStrList_encode (bs : List (List Char)) :
    decodeStrList (Json.arr (bs.map Json.str)) = some bs := by
  unfold decodeStrList
  exact mapM_decode_of_encode Json.str decodeStr decodeStr_encode bs

theorem decodeContact_encode (c : Contact) : decodeContact (contactToJson c) = some c := rfl

theorem decodeExp_encode (e : ExperienceEntry) : decodeExp (expToJson e) = some e := by
  unfold decodeExp expToJson
  simp [getKey, decodeStr, decodeStrList_encode]

theorem decodeProj_encode (e : ProjectEntry) : decodeProj (projToJson e) = some e := by
  unfold decodeProj projToJson
  simp [getKey, decodeStr, decodeStrList_encode]

theorem decodeEdu_encode (e : EducationEntry) : decodeEdu (eduToJson e) = some e := rfl

theorem decodeSkill_encode (e : SkillGroup) : decodeSkill (skillToJson e) = some e := rfl

theorem decodeListWith_encode {α : Type} (f : α → Json) (dec : Json → Option α)
    (h : ∀ e, dec (f e) = some e) (es : List α) :
    decodeListWith dec (Json.arr (es.map f)) = some es := by
  unfold decodeListWith
  exact mapM_decode_of_encode f dec h es

theorem decodeDoc_encode (d : ResumeDoc) : decodeDoc (docToJson d) = some d := by
  unfold decodeDoc docToJson
  simp [getKey, decodeStr, decodeContact_encode,
    decodeListWith_encode expToJson decodeExp decodeExp_encode,
    decodeListWith_encode projToJson decodeProj decodeProj_encode,
    decodeListWith_encode eduToJson decodeEdu decodeEdu_encode,
    decodeListWith_encode skillToJson decodeSkill decodeSkill_encode]

/-- C2: save-then-load round-trip. Saving a well-formed ResumeDocument
serializes the seven-key dict; loading it passes the required-key check and
installs the identical value, and reading the fields back per the data model
recovers the document field-for-field — for any document, including one with
zero entries in every section and empty-string values throughout. -/
theorem c2_save_load_round_trip (d : ResumeDoc) :
    on_load_json (docToJson d) = Except.ok (docToJson d) ∧
      decodeDoc (docToJson d) = some d :=
  ⟨rfl, decodeDoc_encode d⟩

theorem on_load_json_obj_ok {ps : List (List Char × Json)}
    (h : ∀ k ∈ required_keys, pyContains (Json.obj ps) k = true) :
    on_load_json (Json.obj ps) = Except.ok (Json.obj ps) := by
  unfold on_load_json
  rw [List.find?_eq_none.mpr]
  intro k hk
  rw [h k hk]
  simp

theorem on_load_json_obj_missing {ps : List (List Char × Json)} {k : List Char}
    (hk : k ∈ required_keys) (h : pyContains (Json.obj ps) k = false) :
    ∃ msg, on_load_json (Json.obj ps) = Except.error msg := by
  unfold on_load_json
  have : (required_keys.find? fun k => !(pyContains (Json.obj ps) k)).isSome := by
    rw [List.find?_isSome]
    exact ⟨k, hk, by rw [h]; rfl⟩
  rcases Option.isSome_iff_exists.mp this with ⟨k0, hk0⟩
  rw [hk0]
  exact ⟨_, rfl⟩

/-- An all-empty document's serialized fields, used as a concrete load
input. -/
def emptyDocFields : List (List Char × Json) :=
  [("name".data, .str []), ("subtitle".data, .str []),
   ("contact".data, .obj [("website".data, .str []), ("email".data, .str []),
     ("phone".data, .str [])]),
   ("experience".data, .arr []), ("projects".data, .arr []),
   ("education".data, .arr []), ("skills".data, .arr [])]

/-- C6: loading rejects an object missing any one of the seven required
top-level keys — with the message naming the missing key — and accepts an
object that has all seven keys plus an unrecognized extra key, which does
not affect the check; concretely, dropping "skills" fails with
"Invalid resume data: missing skills" and adding "foo" still loads. -/
theorem c6_load_required_and_extra_keys :
    (∀ ps : List (List Char × Json),
      (∀ k ∈ required_keys, pyContains (Json.obj ps) k = true) →
        on_load_json (Json.obj ps) = Except.ok (Json.obj ps)) ∧
    (∀ (ps : List (List Char × Json)) (k : List Char), k ∈ required_keys →
      pyContains (Json.obj ps) k = false →
        ∃ msg, on_load_json (Json.obj ps) = Except.error msg) ∧
    on_load_json (Json.obj (emptyDocFields.take 6)) =
      Except.error "Invalid resume data: missing skills".data ∧
    on_load_json (Json.obj (emptyDocFields ++ [("foo".data, Json.str "bar".data)])) =
      Except.ok (Json.obj (emptyDocFields ++ [("foo".data, Json.str "bar".data)])) :=
  ⟨fun _ h => on_load_json_obj_ok h,
    fun _ _ hk h => on_load_json_obj_missing hk h, rfl, rfl⟩

/-- C6 witness: both universal parts instantiated on concrete objects — the
all-present empty document and the object missing the "skills" key. -/
theorem c6_witness :
    on_load_json (Json.obj emptyDocFields) = Except.ok (Json.obj emptyDocFields) ∧
      ∃ msg, on_load_json (Json.obj (emptyDocFields.take 6)) = Except.error msg :=
  ⟨c6_load_required_and_extra_keys.1 emptyDocFields (by decide),
    c6_load_required_and_extra_keys.2.1 (emptyDocFields.take 6) "skills".data
      (by decide) (by decide)⟩

/-! ## HTML rendering

`generate_html` (html_generator.py:84-143) renders the document through the
section renderers (html_generator.py:26-81) and substitutes the results and
the escaped scalar fields into the resume template by literal string
substitution (`str.format`, each placeholder slot replaced once, in the
template's own order: name twice, then subtitle, the section fragments,
website, website_display, email twice, phone, skills).

The template file `templates/resume_template.html` resolved by
html_generator.py:99-115 is not part of `src/`.  Modelled from the spec:
§6 fixes the template as a fixed HTML document with exactly these named
placeholders, and `ResumeBuilder.generate_html` (resume_builder.py:636-904)
carries the identical document inline as a string literal, from which the
segment constants `tplSeg0`-`tplSeg12` below are transcribed verbatim (with
`\x7b`/`\x7d` written for the CSS braces that Python spells `{{`/`}}`); the
repository test suite asserts the file's landmarks (`<!DOCTYPE html>`,
`{name}`, `{experience}`, `</html>`) match.  Segments are kept as lists of
line-sized chunks; substitution is concatenation of all chunks in order. -/

def tplSeg0 : List (List Char) :=
  ["<!DOCTYPE html>\n".data,
   "<html lang=\"en\">\n".data,
   "<head>\n".data,
   "    <meta charset=\"utf-8\">\n".data,
   "    <title>".data]

def tplSeg1 : List (List Char) :=
  [" Resume</title>\n".data,
   "    <link href=\"https://fonts.googleapis.com/css?family=Open+Sans:300,400,600|Source+Code+Pro:400\" rel=\"stylesheet\">\n".data,
   "    <style>\n".data,
   "        html \x7b line-height: 1.15; -webkit-text-size-adjust: 100%; \x7d\n".data,
   "        body \x7b margin: 0; \x7d\n".data,
   "        main \x7b display: block; \x7d\n".data,
   "        h1 \x7b font-size: 2em; margin: 0.67em 0; \x7d\n".data,
   "        hr \x7b box-sizing: content-box; height: 0; overflow: visible; \x7d\n".data,
   "        pre \x7b font-family: monospace, monospace; font-size: 1em; \x7d\n".data,
   "        a \x7b background-color: transparent; \x7d\n".data,
   "        abbr[title] \x7b border-bottom: none; text-decoration: underline; text-decoration: underline dotted; \x7d\n".data,
   "        b, strong \x7b font-weight: bolder; \x7d\n".data,
   "        code, kbd, samp \x7b font-family: monospace, monospace; font-size: 1em; \x7d\n".data,
   "        small \x7b font-size: 80%; \x7d\n".data,
   "        sub, sup \x7b font-size: 75%; line-height: 0; position: relative; vertical-align: baseline; \x7d\n".data,
   "        sub \x7b bottom: -0.25em; \x7d\n".data,
   "        sup \x7b top: -0.5em; \x7d\n".data,
   "        img \x7b border-style: none; \x7d\n".data,
   "        button, input, optgroup, select, textarea \x7b font-family: inherit; font-size: 100%; line-height: 1.15; margin: 0; \x7d\n".data,
   "        button, input \x7b overflow: visible; \x7d\n".data,
   "        button, select \x7b text-transform: none; \x7d\n".data,
   "        button, [type=\"button\"], [type=\"reset\"], [type=\"submit\"] \x7b -webkit-appearance: button; \x7d\n".data,
   "        button::-moz-focus-inner, [type=\"button\"]::-moz-focus-inner, [type=\"reset\"]::-moz-focus-inner, [type=\"submit\"]::-moz-focus-inner \x7b border-style: none; padding: 0; \x7d\n".data,
   "        button:-moz-focusring, [type=\"button\"]:-moz-focusring, [type=\"reset\"]:-moz-focusring, [type=\"submit\"]:-moz-focusring \x7b outline: 1px dotted ButtonText; \x7d\n".data,
   "        fieldset \x7b padding: 0.35em 0.75em 0.625em; \x7d\n".data,
   "        legend \x7b box-sizing: border-box; color: inherit; display: table; max-width: 100%; padding: 0; white-space: normal; \x7d\n".data,
   "        progress \x7b vertical-align: baseline; \x7d\n".data,
   "        textarea \x7b overflow: auto; \x7d\n".data,
   "        [type=\"checkbox\"], [type=\"radio\"] \x7b box-sizing: border-box; padding: 0; \x7d\n".data,
   "        [type=\"number\"]::-webkit-inner-spin-button, [type=\"number\"]::-webkit-outer-spin-button \x7b height: auto; \x7d\n".data,
   "        [type=\"search\"] \x7b -webkit-appearance: textfield; outline-offset: -2px; \x7d\n".data,
   "        [type=\"search\"]::-webkit-search-decoration \x7b -webkit-appearance: none; \x7d\n".data,
   "        ::-webkit-file-upload-button \x7b -webkit-appearance: button; font: inherit; \x7d\n".data,
   "        details \x7b display: block; \x7d\n".data,
   "        summary \x7b display: list-item; \x7d\n".data,
   "        template \x7b display: none; \x7d\n".data,
   "        [hidden] \x7b display: none; \x7d\n".data,
   "        .fa \x7b font-family: \"Font Awesome 6 Free\"; font-weight: 900; \x7d\n".data,
   "        .fas, .far, .fab, .fa-solid, .fa-regular, .fa-brands, .fa \x7b -moz-osx-font-smoothing: grayscale; -webkit-font-smoothing: antialiased; display: inline-block; font-style: normal; font-variant: normal; line-height: 1; text-rendering: auto; \x7d\n".data,
   "        .fa-suitcase:before \x7b content: \"\\f0b1\"; \x7d\n".data,
   "        .fa-folder-open:before \x7b content: \"\\f07c\"; \x7d\n".data,
   "        .fa-graduation-cap:before \x7b content: \"\\f19d\"; \x7d\n".data,
   "        .fa-envelope:before \x7b content: \"\\f0e0\"; \x7d\n".data,
   "        .fa-phone:before \x7b content: \"\\f095\"; \x7d\n".data,
   "        .fa-code:before \x7b content: \"\\f121\"; \x7d\n".data,
   "        @page \x7b size: letter portrait; margin: 0; \x7d\n".data,
   "        * \x7b box-sizing: border-box; \x7d\n".data,
   "        :root \x7b\n".data,
   "            --page-width: 8.5in;\n".data,
   "            --page-height: 11in;\n".data,
   "            --main-width: 6.4in;\n".data,
   "            --sidebar-width: calc(var(--page-width) - var(--main-width));\n".data,
   "            --decorator-horizontal-margin: 0.2in;\n".data,
   "            --sidebar-horizontal-padding: 0.2in;\n".data,
   "            --decorator-outer-offset-top: 10px;\n".data,
   "            --decorator-outer-offset-left: -5.5px;\n".data,
   "            --decorator-border-width: 1px;\n".data,
   "            --decorator-outer-dim: 9px;\n".data,
   "            --decorator-border: 1px solid #ccc;\n".data,
   "            --row-blocks-padding-top: 5pt;\n".data,
   "            --date-block-width: 0.6in;\n".data,
   "            --main-blocks-title-icon-offset-left: -19pt;\n".data,
   "        \x7d\n".data,
   "        body \x7b\n".data,
   "            width: var(--page-width);\n".data,
   "            height: var(--page-height);\n".data,
   "            margin: 0;\n".data,
   "            font-family: \"Open Sans\", sans-serif;\n".data,
   "            font-weight: 300;\n".data,
   "            line-height: 1.3;\n".data,
   "            color: #444;\n".data,
   "            hyphens: auto;\n".data,
   "        \x7d\n".data,
   "        h1, h2, h3 \x7b margin: 0; color: #000; \x7d\n".data,
   "        li \x7b list-style-type: none; \x7d\n".data,
   "        #main \x7b\n".data,
   "            float: left;\n".data,
   "            width: var(--main-width);\n".data,
   "            padding: 0.25in 0.25in 0 0.25in;\n".data,
   "            font-size: 7pt;\n".data,
   "        \x7d\n".data,
   "        #sidebar \x7b\n".data,
   "            float: right;\n".data,
   "            position: relative;\n".data,
   "            width: var(--sidebar-width);\n".data,
   "            height: 100%;\n".data,
   "            padding: 0.6in var(--sidebar-horizontal-padding);\n".data,
   "            background-color: #f2f2f2;\n".data,
   "            font-size: 8.5pt;\n".data,
   "        \x7d\n".data,
   "        #title, h1, h2 \x7b text-transform: uppercase; \x7d\n".data,
   "        #title \x7b\n".data,
   "            position: relative;\n".data,
   "            left: 0.55in;\n".data,
   "            margin-bottom: 0.3in;\n".data,
   "            line-height: 1.2;\n".data,
   "        \x7d\n".data,
   "        #title h1 \x7b font-weight: 300; font-size: 18pt; line-height: 1.5; \x7d\n".data,
   "        #title h1 strong \x7b margin: auto 2pt auto 4pt; font-weight: 600; \x7d\n".data,
   "        .subtitle \x7b font-size: 8pt; \x7d\n".data,
   "        .main-block \x7b margin-top: 0.1in; \x7d\n".data,
   "        #main h2 \x7b\n".data,
   "            position: relative;\n".data,
   "            top: var(--row-blocks-padding-top);\n".data,
   "            left: calc((var(--date-block-width) + var(--decorator-horizontal-margin)));\n".data,
   "            font-weight: 400;\n".data,
   "            font-size: 11pt;\n".data,
   "            color: #555;\n".data,
   "        \x7d\n".data,
   "        #main h2 > i \x7b\n".data,
   "            position: absolute;\n".data,
   "            left: var(--main-blocks-title-icon-offset-left);\n".data,
   "            z-index: 1;\n".data,
   "            color: #444;\n".data,
   "        \x7d\n".data,
   "        #main h2::after \x7b\n".data,
   "            height: calc(var(--row-blocks-padding-top) * 2);\n".data,
   "            position: relative;\n".data,
   "            top: calc(-1 * var(--row-blocks-padding-top));\n".data,
   "            left: calc(-1 * var(--decorator-horizontal-margin));\n".data,
   "            display: block;\n".data,
   "            border-left: var(--decorator-border);\n".data,
   "            z-index: 0;\n".data,
   "            line-height: 0;\n".data,
   "            font-size: 0;\n".data,
   "            content: \" \";\n".data,
   "        \x7d\n".data,
   "        #main h2 > .fa-graduation-cap \x7b left: calc(var(--main-blocks-title-icon-offset-left) - 2pt); top: 2pt; \x7d\n".data,
   "        #main h2 > .fa-suitcase \x7b top: 1pt; \x7d\n".data,
   "        #main h2 > .fa-folder-open \x7b top: 1.5pt; \x7d\n".data,
   "        .blocks \x7b display: flex; flex-flow: row nowrap; \x7d\n".data,
   "        .blocks > div \x7b padding-top: var(--row-blocks-padding-top); \x7d\n".data,
   "        .date \x7b\n".data,
   "            flex: 0 0 var(--date-block-width);\n".data,
   "            padding-top: calc(var(--row-blocks-padding-top) + 2.5pt);\n".data,
   "            padding-right: var(--decorator-horizontal-margin);\n".data,
   "            font-size: 7pt;\n".data,
   "            text-align: right;\n".data,
   "            line-height: 1;\n".data,
   "        \x7d\n".data,
   "        .date span \x7b display: block; \x7d\n".data,
   "        .date span:nth-child(2)::before \x7b\n".data,
   "            position: relative;\n".data,
   "            top: 1pt;\n".data,
   "            right: 5.5pt;\n".data,
   "            display: block;\n".data,
   "            height: 10pt;\n".data,
   "            content: \"|\";\n".data,
   "        \x7d\n".data,
   "        .decorator \x7b\n".data,
   "            flex: 0 0 0;\n".data,
   "            position: relative;\n".data,
   "            width: 2pt;\n".data,
   "            min-height: 100%;\n".data,
   "            border-left: var(--decorator-border);\n".data,
   "        \x7d\n".data,
   "        .decorator::before \x7b\n".data,
   "            position: absolute;\n".data,
   "            top: var(--decorator-outer-offset-top);\n".data,
   "            left: var(--decorator-outer-offset-left);\n".data,
   "            content: \" \";\n".data,
   "            display: block;\n".data,
   "            width: var(--decorator-outer-dim);\n".data,
   "            height: var(--decorator-outer-dim);\n".data,
   "            border-radius: calc(var(--decorator-outer-dim) / 2);\n".data,
   "            background-color: #fff;\n".data,
   "        \x7d\n".data,
   "        .decorator::after \x7b\n".data,
   "            position: absolute;\n".data,
   "            top: calc(var(--decorator-outer-offset-top) + var(--decorator-border-width));\n".data,
   "            left: calc(var(--decorator-outer-offset-left) + var(--decorator-border-width));\n".data,
   "            content: \" \";\n".data,
   "            display: block;\n".data,
   "            width: calc(var(--decorator-outer-dim) - (var(--decorator-border-width) * 2));\n".data,
   "            height: calc(var(--decorator-outer-dim) - (var(--decorator-border-width) * 2));\n".data,
   "            border-radius: calc((var(--decorator-outer-dim) - (var(--decorator-border-width) * 2)) / 2);\n".data,
   "            background-color: #555;\n".data,
   "        \x7d\n".data,
   "        .blocks:last-child .decorator \x7b margin-bottom: 0.25in; \x7d\n".data,
   "        .details \x7b\n".data,
   "            flex: 1 0 0;\n".data,
   "            padding-left: var(--decorator-horizontal-margin);\n".data,
   "            padding-top: calc(var(--row-blocks-padding-top) - 0.5pt);\n".data,
   "        \x7d\n".data,
   "        .details header \x7b color: #000; \x7d\n".data,
   "        .details h3 \x7b font-size: 9pt; \x7d\n".data,
   "        .main-block:not(.concise) .details div \x7b margin: 0.18in 0 0.1in 0; \x7d\n".data,
   "        .main-block:not(.concise) .blocks:last-child .details div \x7b margin-bottom: 0; \x7d\n".data,
   "        .main-block.concise .details div:not(.concise) \x7b padding: 0.05in 0 0.07in 0; \x7d\n".data,
   "        .details .place \x7b float: left; font-size: 7.5pt; \x7d\n".data,
   "        .details .location \x7b float: right; \x7d\n".data,
   "        .details div \x7b clear: both; \x7d\n".data,
   "        .details .location::before \x7b\n".data,
   "            display: inline-block;\n".data,
   "            position: relative;\n".data,
   "            right: 3pt;\n".data,
   "            top: 0.25pt;\n".data,
   "            font-family: \"Font Awesome 6 Free\";\n".data,
   "            font-weight: normal;\n".data,
   "            font-style: normal;\n".data,
   "            text-decoration: inherit;\n".data,
   "            content: \"\\f041\";\n".data,
   "        \x7d\n".data,
   "        #main ul \x7b padding-left: 0.07in; margin: 0.08in 0; \x7d\n".data,
   "        #main li \x7b margin: 0 0 0.025in 0; \x7d\n".data,
   "        #main li::before \x7b position: relative; margin-left: -4.25pt; content: \"â€¢ \"; \x7d\n".data,
   "        .details .concise ul \x7b margin: 0; -webkit-columns: 2; -moz-columns: 2; columns: 2; \x7d\n".data,
   "        .details .concise li \x7b margin: 0; margin-left: 0; \x7d\n".data,
   "        #sidebar h1 \x7b font-weight: 400; font-size: 11pt; \x7d\n".data,
   "        .side-block \x7b margin-top: 0.5in; \x7d\n".data,
   "        #contact ul \x7b margin-top: 0.05in; padding-left: 0; font-family: \"Source Code Pro\"; font-weight: 400; line-height: 1.75; \x7d\n".data,
   "        #contact li > i \x7b width: 9pt; text-align: right; \x7d\n".data,
   "        #skills \x7b line-height: 1.5; \x7d\n".data,
   "        #skills ul \x7b margin: 0.05in 0 0.15in; padding: 0; \x7d\n".data,
   "        #disclaimer \x7b\n".data,
   "            position: absolute;\n".data,
   "            bottom: var(--sidebar-horizontal-padding);\n".data,
   "            right: var(--sidebar-horizontal-padding);\n".data,
   "            font-size: 7.5pt;\n".data,
   "            font-style: italic;\n".data,
   "            line-height: 1.1;\n".data,
   "            text-align: right;\n".data,
   "            color: #777;\n".data,
   "        \x7d\n".data,
   "        #disclaimer code \x7b color: #666; font-family: \"Source Code Pro\"; font-weight: 400; font-style: normal; \x7d\n".data,
   "    </style>\n".data,
   "</head>\n".data,
   "<body lang=\"en\">\n".data,
   "    <section id=\"main\">\n".data,
   "        <header id=\"title\">\n".data,
   "            <h1>".data]

def tplSeg2 : List (List Char) :=
  ["</h1>\n".data,
   "            <span class=\"subtitle\">".data]

def tplSeg3 : List (List Char) :=
  ["</span>\n".data,
   "        </header>\n".data,
   "        <section class=\"main-block\">\n".data,
   "            <h2><i class=\"fa fa-suitcase\"></i> Experience</h2>\n".data,
   "            ".data]

def tplSeg4 : List (List Char) :=
  ["\n".data,
   "        </section>\n".data,
   "        <section class=\"main-block\">\n".data,
   "            <h2><i class=\"fa fa-folder-open\"></i> Projects</h2>\n".data,
   "            ".data]

def tplSeg5 : List (List Char) :=
  ["\n".data,
   "        </section>\n".data,
   "        <section class=\"main-block concise\">\n".data,
   "            <h2><i class=\"fa fa-graduation-cap\"></i> Education & Certifications</h2>\n".data,
   "            ".data]

def tplSeg6 : List (List Char) :=
  ["\n".data,
   "        </section>\n".data,
   "    </section>\n".data,
   "    <aside id=\"sidebar\">\n".data,
   "        <div class=\"side-block\" id=\"contact\">\n".data,
   "            <h1>Contact Info</h1>\n".data,
   "            <ul>\n".data,
   "                <a href=\"".data]

def tplSeg7 : List (List Char) :=
  ["\">".data]

def tplSeg8 : List (List Char) :=
  ["</a>\n".data,
   "                <li><i class=\"fa fa-envelope\"></i> <a href=\"mailto:".data]

def tplSeg9 : List (List Char) :=
  ["\">".data]

def tplSeg10 : List (List Char) :=
  ["</a></li>\n".data,
   "                <li><i class=\"fa fa-phone\"></i> ".data]

def tplSeg11 : List (List Char) :=
  ["</li>\n".data,
   "            </ul>\n".data,
   "        </div>\n".data,
   "        <div class=\"side-block\" id=\"skills\">\n".data,
   "            <h1>Skills</h1>\n".data,
   "            ".data]

def tplSeg12 : List (List Char) :=
  ["\n".data,
   "        </div>\n".data,
   "        <div class=\"side-block\" id=\"disclaimer\">\n".data,
   "            Built with Resume Builder\n".data,
   "        </div>\n".data,
   "    </aside>\n".data,
   "</body>\n".data,
   "</html>".data]

/-- One experience block (html_generator.py:31-39), as its chunk sequence:
the f-string's literal parts interleaved with the escaped field values, with
one `<li>…</li>` triple per bullet. -/
def expChunks (e : ExperienceEntry) : List (List Char) :=
  ["\n        <section class=\"blocks\">\n            <div class=\"date\"><span>".data,
   escape_text e.end_date,
   "</span><span>".data,
   escape_text e.start_date,
   "</span></div>\n            <div class=\"decorator\"></div>\n            <div class=\"details\">\n                <header><h3>".data,
   escape_text e.title,
   "</h3><span class=\"place\">".data,
   escape_text e.company,
   "</span><span class=\"location\">".data,
   escape_text e.location,
   "</span></header>\n                <div><ul>".data] ++
  (e.bullets.map fun b => ["<li>".data, escape_text b, "</li>".data]).flatten ++
  ["</ul></div>\n            </div>\n        </section>".data]

/-- `generate_experience_html` (html_generator.py:26-40): concatenation of
one block per entry, in order. -/
def generate_experience_html (experiences : List ExperienceEntry) : List Char :=
  (experiences.map fun e => (expChunks e).flatten).flatten

/-- One project block (html_generator.py:48-56). -/
def projChunks (e : ProjectEntry) : List (List Char) :=
  ["\n        <section class=\"blocks\">\n            <div class=\"date\"><span>".data,
   escape_text e.end_date,
   "</span><span>".data,
   escape_text e.start_date,
   "</span></div>\n            <div class=\"decorator\"></div>\n            <div class=\"details\">\n                <header><h3>".data,
   escape_text e.title,
   "</h3><span class=\"place\">".data,
   escape_text e.subtitle,
   "</span></header>\n                <div><ul>".data] ++
  (e.bullets.map fun b => ["<li>".data, escape_text b, "</li>".data]).flatten ++
  ["</ul></div>\n            </div>\n        </section>".data]

/-- `generate_projects_html` (html_generator.py:43-57). -/
def generate_projects_html (projects : List ProjectEntry) : List Char :=
  (projects.map fun e => (projChunks e).flatten).flatten

/-- One education block (html_generator.py:64-72). -/
def eduChunks (e : EducationEntry) : List (List Char) :=
  ["\n        <section class=\"blocks\">\n            <div class=\"date\"><span>".data,
   escape_text e.end_date,
   "</span><span>".data,
   escape_text e.start_date,
   "</span></div>\n            <div class=\"decorator\"></div>\n            <div class=\"details\">\n                <header><h3>".data,
   escape_text e.degree,
   "</h3><span class=\"place\">".data,
   escape_text e.school,
   "</span><span class=\"location\">".data,
   escape_text e.location,
   "</span></header>\n                <div>".data,
   escape_text e.notes,
   "</div>\n            </div>\n        </section>".data]

/-- `generate_education_html` (html_generator.py:60-73). -/
def generate_education_html (education : List EducationEntry) : List Char :=
  (education.map fun e => (eduChunks e).flatten).flatten

/-- One skills group (html_generator.py:80). -/
def skillChunks (e : SkillGroup) : List (List Char) :=
  ["<ul><li><strong>".data, escape_text e.category, ":</strong></li><li>".data,
   escape_text e.skills, "</li></ul>".data]

/-- `generate_skills_html` (html_generator.py:76-81). -/
def generate_skills_html (skills : List SkillGroup) : List Char :=
  (skills.map fun e => (skillChunks e).flatten).flatten

/-- `website_display` (html_generator.py:128-129, resume_builder.py:906-907):
`website.replace("https://", "").replace("http://", "")`. -/
def website_display (website : List Char) : List Char :=
  pyReplace "http://".data [] (pyReplace "https://".data [] website)

/-- The full rendered document as its chunk sequence: template segments
interleaved, in the template's slot order, with the escaped scalar values and
the section fragments.  The `.get` defaults of the source
(`data.get('name', 'Your Name')` and friends) apply only when a key is
absent from the dict, which cannot occur for a document of the §3 data
model, so each slot carries the document's own field. -/
def docChunks (d : ResumeDoc) : List (List Char) :=
  tplSeg0 ++ [escape_text d.name] ++ tplSeg1 ++ [escape_text d.name] ++ tplSeg2 ++
    [escape_text d.subtitle] ++ tplSeg3 ++ (d.experience.map expChunks).flatten ++
    tplSeg4 ++ (d.projects.map projChunks).flatten ++ tplSeg5 ++
    (d.education.map eduChunks).flatten ++ tplSeg6 ++
    [escape_text d.contact.website] ++ tplSeg7 ++
    [escape_text (website_display d.contact.website)] ++ tplSeg8 ++
    [escape_text d.contact.email] ++ tplSeg9 ++ [escape_text d.contact.email] ++
    tplSeg10 ++ [escape_text d.contact.phone] ++ tplSeg11 ++
    (d.skills.map skillChunks).flatten ++ tplSeg12

/-- `generate_html` (html_generator.py:84-143) with the template resolved:
the substituted document string. -/
def generate_html (d : ResumeDoc) : List Char :=
  (docChunks d).flatten

theorem flatten_map_flatten {α : Type} (f : α → List (List Char)) (es : List α) :
    ((es.map f).flatten).flatten = (es.map fun e => (f e).flatten).flatten := by
  induction es with
  | nil => rfl
  | cons e es ih =>
    simp only [List.map_cons, List.flatten_cons, List.flatten_append, ih]

/-- `generate_html` is the format-style concatenation of the template
segments with the escaped fields and the section renderers' output. -/
theorem generate_html_eq (d : ResumeDoc) :
    generate_html d =
      tplSeg0.flatten ++ escape_text d.name ++ tplSeg1.flatten ++ escape_text d.name ++
        tplSeg2.flatten ++ escape_text d.subtitle ++ tplSeg3.flatten ++
        generate_experience_html d.experience ++ tplSeg4.flatten ++
        generate_projects_html d.projects ++ tplSeg5.flatten ++
        generate_education_html d.education ++ tplSeg6.flatten ++
        escape_text d.contact.website ++ tplSeg7.flatten ++
        escape_text (website_display d.contact.website) ++ tplSeg8.flatten ++
        escape_text d.contact.email ++ tplSeg9.flatten ++ escape_text d.contact.email ++
        tplSeg10.flatten ++ escape_text d.contact.phone ++ tplSeg11.flatten ++
        generate_skills_html d.skills ++ tplSeg12.flatten := by
  unfold generate_html docChunks generate_experience_html generate_projects_html
    generate_education_html generate_skills_html
  simp only [List.flatten_append, List.flatten_cons, List.flatten_nil, List.append_nil,
    List.append_assoc, flatten_map_flatten]

theorem prefix_append_cases {α : Type} {p a b : List α} (h : p <+: a ++ b) :
    p <+: a ∨ ∃ q, p = a ++ q ∧ q <+: b := by
  induction a generalizing p with
  | nil =>
    right
    exact ⟨p, rfl, by simpa using h⟩
  | cons x a' ih =>
    cases p with
    | nil => left; exact List.nil_prefix
    | cons y p' =>
      rw [List.cons_append, List.cons_prefix_cons] at h
      obtain ⟨rfl, hp⟩ := h
      rcases ih hp with h | ⟨q, rfl, hq⟩
      · left
        exact List.cons_prefix_cons.mpr ⟨rfl, h⟩
      · right
        exact ⟨q, by rw [List.cons_append], hq⟩

theorem infix_append_split {α : Type} {p a b : List α} (h : p <:+: a ++ b) :
    p <:+: a ∨ p <:+: b ∨
      ∃ p₁ p₂, p = p₁ ++ p₂ ∧ p₁ ≠ [] ∧ p₂ ≠ [] ∧ p₁ <:+ a ∧ p₂ <+: b := by
  induction a with
  | nil =>
    right; left
    simpa using h
  | cons x a' ih =>
    rw [List.cons_append] at h
    rcases List.infix_cons_iff.mp h with h | h
    · cases p with
      | nil => left; exact List.nil_infix
      | cons y p' =>
        rw [List.cons_prefix_cons] at h
        obtain ⟨rfl, hp⟩ := h
        rcases prefix_append_cases hp with hc | ⟨q, rfl, hq⟩
        · left
          exact (List.cons_prefix_cons.mpr ⟨rfl, hc⟩).isInfix
        · cases q with
          | nil =>
            left
            have heq : y :: (a' ++ ([] : List α)) = y :: a' := by simp
            rw [heq]
          | cons z q' =>
            right; right
            exact ⟨y :: a', z :: q', by rw [List.cons_append], by simp, by simp,
              List.suffix_rfl, hq⟩
    · rcases ih h with h | h | ⟨p₁, p₂, heq, h1, h2, hsuf, hpre⟩
      · left
        exact h.trans (List.suffix_cons x a').isInfix
      · right; left
        exact h
      · right; right
        exact ⟨p₁, p₂, heq, h1, h2, hsuf.trans (List.suffix_cons x a'), hpre⟩

/-- A chunk is safe for a pattern when the pattern does not occur inside it
and no nonempty proper prefix of the pattern is a suffix of it: then no
occurrence of the pattern in a concatenation can start inside this chunk. -/
def SafeChunk (pat c : List Char) : Prop :=
  ¬ pat <:+: c ∧ ∀ k, k < pat.length → 0 < k → ¬ pat.take k <:+ c

instance (pat c : List Char) : Decidable (SafeChunk pat c) := by
  unfold SafeChunk
  infer_instance

theorem safeChunk_of_not_mem {p0 : Char} {pat' c : List Char} (h : p0 ∉ c) :
    SafeChunk (p0 :: pat') c := by
  constructor
  · intro hin
    exact h (hin.subset (List.mem_cons_self _ _))
  · intro k hk h0 hin
    apply h
    apply hin.subset
    cases k with
    | zero => omega
    | succ k =>
      rw [List.take_succ_cons]
      exact List.mem_cons_self _ _

theorem no_pat_flatten {p0 : Char} {pat' : List Char} :
    ∀ {chunks : List (List Char)}, (∀ c ∈ chunks, SafeChunk (p0 :: pat') c) →
      ¬ (p0 :: pat') <:+: chunks.flatten := by
  intro chunks
  induction chunks with
  | nil =>
    intro _ hin
    rw [List.flatten_nil] at hin
    simp at hin
  | cons c rest ih =>
    intro h hin
    rw [List.flatten_cons] at hin
    rcases infix_append_split hin with hc | hr | ⟨p₁, p₂, hp_eq, h1, h2, hsuf, -⟩
    · exact (h c (List.mem_cons_self _ _)).1 hc
    · exact ih (fun c hc => h c (List.mem_cons_of_mem _ hc)) hr
    · have hlen : p₁.length < (p0 :: pat').length := by
        have hl := congrArg List.length hp_eq
        rw [List.length_append] at hl
        have h2' : 0 < p₂.length := List.length_pos.mpr h2
        omega
      have htake : (p0 :: pat').take p₁.length = p₁ := by
        rw [hp_eq, List.take_left]
      exact (h c (List.mem_cons_self _ _)).2 p₁.length hlen
        (List.length_pos.mpr h1) (by rw [htake]; exact hsuf)

theorem infix_flatten_of_mem {l : List Char} :
    ∀ {L : List (List Char)}, l ∈ L → l <:+: L.flatten := by
  intro L
  induction L with
  | nil => intro h; cases h
  | cons c rest ih =>
    intro h
    rw [List.flatten_cons]
    rcases List.mem_cons.mp h with rfl | h
    · exact (List.prefix_append l rest.flatten).isInfix
    · exact (ih h).trans (List.suffix_append c rest.flatten).isInfix

theorem escape_text_not_mem_lt (x : List Char) : '<' ∉ escape_text x := by
  unfold escape_text
  split
  · simp
  · exact lt_not_mem_htmlEscape x

theorem forall_mem_flatten_map {α : Type} {P : List Char → Prop} (f : α → List (List Char))
    (es : List α) (h : ∀ e, ∀ c ∈ f e, P c) : ∀ c ∈ (es.map f).flatten, P c := by
  intro c hc
  rcases List.mem_flatten.mp hc with ⟨l, hl, hcl⟩
  rcases List.mem_map.mp hl with ⟨e, -, rfl⟩
  exact h e c hcl

set_option maxRecDepth 40000 in
theorem tplSeg0_safe_script : ∀ c ∈ tplSeg0, SafeChunk "<script>".data c := by decide

set_option maxRecDepth 40000 in
theorem tplSeg1_safe_script : ∀ c ∈ tplSeg1, SafeChunk "<script>".data c := by decide

set_option maxRecDepth 40000 in
theorem tplSeg2_safe_script : ∀ c ∈ tplSeg2, SafeChunk "<script>".data c := by decide

set_option maxRecDepth 40000 in
theorem tplSeg3_safe_script : ∀ c ∈ tplSeg3, SafeChunk "<script>".data c := by decide

set_option maxRecDepth 40000 in
theorem tplSeg4_safe_script : ∀ c ∈ tplSeg4, SafeChunk "<script>".data c := by decide

set_option maxRecDepth 40000 in
theorem tplSeg5_safe_script : ∀ c ∈ tplSeg5, SafeChunk "<script>".data c := by decide

set_option maxRecDepth 40000 in
theorem tplSeg6_safe_script : ∀ c ∈ tplSeg6, SafeChunk "<script>".data c := by decide

set_option maxRecDepth 40000 in
theorem tplSeg7_safe_script : ∀ c ∈ tplSeg7, SafeChunk "<script>".data c := by decide

set_option maxRecDepth 40000 in
theorem tplSeg8_safe_script : ∀ c ∈ tplSeg8, SafeChunk "<script>".data c := by decide

set_option maxRecDepth 40000 in
theorem tplSeg9_safe_script : ∀ c ∈ tplSeg9, SafeChunk "<script>".data c := by decide

set_option maxRecDepth 40000 in
theorem tplSeg10_safe_script : ∀ c ∈ tplSeg10, SafeChunk "<script>".data c := by decide

set_option maxRecDepth 40000 in
theorem tplSeg11_safe_script : ∀ c ∈ tplSeg11, SafeChunk "<script>".data c := by decide

set_option maxRecDepth 40000 in
theorem tplSeg12_safe_script : ∀ c ∈ tplSeg12, SafeChunk "<script>".data c := by decide

set_option maxRecDepth 40000

theorem bulletChunks_safe_script (bs : List (List Char)) :
    ∀ c ∈ (bs.map fun b => ["<li>".data, escape_text b, "</li>".data]).flatten,
      SafeChunk "<script>".data c := by
  refine forall_mem_flatten_map _ bs ?_
  intro b
  refine List.forall_mem_cons.mpr ⟨by decide, ?_⟩
  refine List.forall_mem_cons.mpr ⟨safeChunk_of_not_mem (escape_text_not_mem_lt b), ?_⟩
  refine List.forall_mem_cons.mpr ⟨by decide, ?_⟩
  intro c hc
  cases hc

theorem expChunks_safe_script (e : ExperienceEntry) :
    ∀ c ∈ expChunks e, SafeChunk "<script>".data c := by
  unfold expChunks
  refine List.forall_mem_append.mpr ⟨List.forall_mem_append.mpr ⟨?_, ?_⟩, ?_⟩
  · refine List.forall_mem_cons.mpr ⟨by decide, ?_⟩
    refine List.forall_mem_cons.mpr ⟨safeChunk_of_not_mem (escape_text_not_mem_lt _), ?_⟩
    refine List.forall_mem_cons.mpr ⟨by decide, ?_⟩
    refine List.forall_mem_cons.mpr ⟨safeChunk_of_not_mem (escape_text_not_mem_lt _), ?_⟩
    refine List.forall_mem_cons.mpr ⟨by decide, ?_⟩
    refine List.forall_mem_cons.mpr ⟨safeChunk_of_not_mem (escape_text_not_mem_lt _), ?_⟩
    refine List.forall_mem_cons.mpr ⟨by decide, ?_⟩
    refine List.forall_mem_cons.mpr ⟨safeChunk_of_not_mem (escape_text_not_mem_lt _), ?_⟩
    refine List.forall_mem_cons.mpr ⟨by decide, ?_⟩
    refine List.forall_mem_cons.mpr ⟨safeChunk_of_not_mem (escape_text_not_mem_lt _), ?_⟩
    refine List.forall_mem_cons.mpr ⟨by decide, ?_⟩
    intro c hc
    cases hc
  · exact bulletChunks_safe_script e.bullets
  · refine List.forall_mem_cons.mpr ⟨by decide, ?_⟩
    intro c hc
    cases hc

theorem projChunks_safe_script (e : ProjectEntry) :
    ∀ c ∈ projChunks e, SafeChunk "<script>".data c := by
  unfold projChunks
  refine List.forall_mem_append.mpr ⟨List.forall_mem_append.mpr ⟨?_, ?_⟩, ?_⟩
  · refine List.forall_mem_cons.mpr ⟨by decide, ?_⟩
    refine List.forall_mem_cons.mpr ⟨safeChunk_of_not_mem (escape_text_not_mem_lt _), ?_⟩
    refine List.forall_mem_cons.mpr ⟨by decide, ?_⟩
    refine List.forall_mem_cons.mpr ⟨safeChunk_of_not_mem (escape_text_not_mem_lt _), ?_⟩
    refine List.forall_mem_cons.mpr ⟨by decide, ?_⟩
    refine List.forall_mem_cons.mpr ⟨safeChunk_of_not_mem (escape_text_not_mem_lt _), ?_⟩
    refine List.forall_mem_cons.mpr ⟨by decide, ?_⟩
    refine List.forall_mem_cons.mpr ⟨safeChunk_of_not_mem (escape_text_not_mem_lt _), ?_⟩
    refine List.forall_mem_cons.mpr ⟨by decide, ?_⟩
    intro c hc
    cases hc
  · exact bulletChunks_safe_script e.bullets
  · refine List.forall_mem_cons.mpr ⟨by decide, ?_⟩
    intro c hc
    cases hc

theorem eduChunks_safe_script (e : EducationEntry) :
    ∀ c ∈ eduChunks e, SafeChunk "<script>".data c := by
  unfold eduChunks
  refine List.forall_mem_cons.mpr ⟨by decide, ?_⟩
  refine List.forall_mem_cons.mpr ⟨safeChunk_of_not_mem (escape_text_not_mem_lt _), ?_⟩
  refine List.forall_mem_cons.mpr ⟨by decide, ?_⟩
  refine List.forall_mem_cons.mpr ⟨safeChunk_of_not_mem (escape_text_not_mem_lt _), ?_⟩
  refine List.forall_mem_cons.mpr ⟨by decide, ?_⟩
  refine List.forall_mem_cons.mpr ⟨safeChunk_of_not_mem (escape_text_not_mem_lt _), ?_⟩
  refine List.forall_mem_cons.mpr ⟨by decide, ?_⟩
  refine List.forall_mem_cons.mpr ⟨safeChunk_of_not_mem (escape_text_not_mem_lt _), ?_⟩
  refine List.forall_mem_cons.mpr ⟨by decide, ?_⟩
  refine List.forall_mem_cons.mpr ⟨safeChunk_of_not_mem (escape_text_not_mem_lt _), ?_⟩
  refine List.forall_mem_cons.mpr ⟨by decide, ?_⟩
  refine List.forall_mem_cons.mpr ⟨safeChunk_of_not_mem (escape_text_not_mem_lt _), ?_⟩
  refine List.forall_mem_cons.mpr ⟨by decide, ?_⟩
  intro c hc
  cases hc

theorem skillChunks_safe_script (e : SkillGroup) :
    ∀ c ∈ skillChunks e, SafeChunk "<script>".data c := by
  unfold skillChunks
  refine List.forall_mem_cons.mpr ⟨by decide, ?_⟩
  refine List.forall_mem_cons.mpr ⟨safeChunk_of_not_mem (escape_text_not_mem_lt _), ?_⟩
  refine List.forall_mem_cons.mpr ⟨by decide, ?_⟩
  refine List.forall_mem_cons.mpr ⟨safeChunk_of_not_mem (escape_text_not_mem_lt _), ?_⟩
  refine List.forall_mem_cons.mpr ⟨by decide, ?_⟩
  intro c hc
  cases hc

theorem docChunks_safe_script (d : ResumeDoc) :
    ∀ c ∈ docChunks d, SafeChunk "<script>".data c := by
  unfold docChunks
  refine List.forall_mem_append.mpr ⟨?_, tplSeg12_safe_script⟩
  refine List.forall_mem_append.mpr ⟨?_, forall_mem_flatten_map skillChunks d.skills (fun e => skillChunks_safe_script e)⟩
  refine List.forall_mem_append.mpr ⟨?_, tplSeg11_safe_script⟩
  refine List.forall_mem_append.mpr ⟨?_, List.forall_mem_singleton.mpr (safeChunk_of_not_mem (escape_text_not_mem_lt _))⟩
  refine List.forall_mem_append.mpr ⟨?_, tplSeg10_safe_script⟩
  refine List.forall_mem_append.mpr ⟨?_, List.forall_mem_singleton.mpr (safeChunk_of_not_mem (escape_text_not_mem_lt _))⟩
  refine List.forall_mem_append.mpr ⟨?_, tplSeg9_safe_script⟩
  refine List.forall_mem_append.mpr ⟨?_, List.forall_mem_singleton.mpr (safeChunk_of_not_mem (escape_text_not_mem_lt _))⟩
  refine List.forall_mem_append.mpr ⟨?_, tplSeg8_safe_script⟩
  refine List.forall_mem_append.mpr ⟨?_, List.forall_mem_singleton.mpr (safeChunk_of_not_mem (escape_text_not_mem_lt _))⟩
  refine List.forall_mem_append.mpr ⟨?_, tplSeg7_safe_script⟩
  refine List.forall_mem_append.mpr ⟨?_, List.forall_mem_singleton.mpr (safeChunk_of_not_mem (escape_text_not_mem_lt _))⟩
  refine List.forall_mem_append.mpr ⟨?_, tplSeg6_safe_script⟩
  refine List.forall_mem_append.mpr ⟨?_, forall_mem_flatten_map eduChunks d.education (fun e => eduChunks_safe_script e)⟩
  refine List.forall_mem_append.mpr ⟨?_, tplSeg5_safe_script⟩
  refine List.forall_mem_append.mpr ⟨?_, forall_mem_flatten_map projChunks d.projects (fun e => projChunks_safe_script e)⟩
  refine List.forall_mem_append.mpr ⟨?_, tplSeg4_safe_script⟩
  refine List.forall_mem_append.mpr ⟨?_, forall_mem_flatten_map expChunks d.experience (fun e => expChunks_safe_script e)⟩
  refine List.forall_mem_append.mpr ⟨?_, tplSeg3_safe_script⟩
  refine List.forall_mem_append.mpr ⟨?_, List.forall_mem_singleton.mpr (safeChunk_of_not_mem (escape_text_not_mem_lt _))⟩
  refine List.forall_mem_append.mpr ⟨?_, tplSeg2_safe_script⟩
  refine List.forall_mem_append.mpr ⟨?_, List.forall_mem_singleton.mpr (safeChunk_of_not_mem (escape_text_not_mem_lt _))⟩
  refine List.forall_mem_append.mpr ⟨?_, tplSeg1_safe_script⟩
  refine List.forall_mem_append.mpr ⟨?_, List.forall_mem_singleton.mpr (safeChunk_of_not_mem (escape_text_not_mem_lt _))⟩
  exact tplSeg0_safe_script

/-- A document with every field empty: the in-app initial state after
clearing, and the smallest well-formed document. -/
def emptyDoc : ResumeDoc :=
  ⟨[], [], ⟨[], [], []⟩, [], [], [], []⟩

/-- An experience entry whose title is the attack string of the spec's
example. -/
def c1Entry : ExperienceEntry :=
  ⟨"<script>alert(1)</script>".data, "Tech Corp".data, "SF".data,
   "2020".data, "2021".data, []⟩

/-- A concrete document holding `c1Entry`. -/
def c1Doc : ResumeDoc :=
  ⟨"Jane".data, [], ⟨[], [], []⟩, [c1Entry], [], [], []⟩

/-- C1: for every document in which some experience entry's title field is
the exact string "<script>alert(1)</script>", the rendered document contains
the substring "&lt;script&gt;" and never the literal substring "<script>":
every interpolated value passes through `escape_text`, and neither the
template segments nor any escaped value can produce "<script>", even across
chunk boundaries. -/
theorem c1_script_escaped (d : ResumeDoc)
    (h : ∃ e ∈ d.experience, e.title = "<script>alert(1)</script>".data) :
    "&lt;script&gt;".data <:+: generate_html d ∧
      ¬ "<script>".data <:+: generate_html d := by
  constructor
  · rcases h with ⟨e, he, ht⟩
    have hmemExp : escape_text e.title ∈ expChunks e := by
      unfold expChunks
      apply List.mem_append_left
      apply List.mem_append_left
      exact List.mem_cons_of_mem _ (List.mem_cons_of_mem _ (List.mem_cons_of_mem _
        (List.mem_cons_of_mem _ (List.mem_cons_of_mem _ (List.mem_cons_self _ _)))))
    have hmemFlat : escape_text e.title ∈ (d.experience.map expChunks).flatten :=
      List.mem_flatten.mpr ⟨expChunks e, List.mem_map_of_mem _ he, hmemExp⟩
    have hmemDoc : escape_text e.title ∈ docChunks d := by
      unfold docChunks
      iterate 17 apply List.mem_append_left
      apply List.mem_append_right
      exact hmemFlat
    have hchunk : escape_text e.title <:+: generate_html d :=
      infix_flatten_of_mem hmemDoc
    have hpre : "&lt;script&gt;".data <+: escape_text e.title := by
      rw [ht]; decide
    exact hpre.isInfix.trans hchunk
  · intro hin
    have hsplit : "<script>".data = '<' :: "script>".data := rfl
    rw [hsplit] at hin
    exact no_pat_flatten (docChunks_safe_script d) hin

theorem c1_script_escaped_witness :
    (∃ e ∈ c1Doc.experience, e.title = "<script>alert(1)</script>".data) ∧
      ("&lt;script&gt;".data <:+: generate_html c1Doc ∧
        ¬ "<script>".data <:+: generate_html c1Doc) :=
  ⟨⟨c1Entry, List.mem_cons_self _ _, rfl⟩,
    c1_script_escaped c1Doc ⟨c1Entry, List.mem_cons_self _ _, rfl⟩⟩

set_option maxRecDepth 40000 in
theorem emptyDoc_chunks_safe_yourname :
    ∀ c ∈ docChunks emptyDoc, SafeChunk ('Y' :: "our Name".data) c := by decide

/-- C7 (amended): rendering any document of the data model — in particular
one whose four section sequences are all empty — produces output containing
"<!DOCTYPE html>" and a closing "</html>"; the placeholder "Your Name" is
NOT inserted for an empty-string name, since the source's
`data.get('name', 'Your Name')` default fires only when the key is absent
from the dict, never for a present empty value. -/
theorem c7_doctype_and_closing (d : ResumeDoc) :
    "<!DOCTYPE html>".data <:+: generate_html d ∧
      "</html>".data <:+: generate_html d := by
  constructor
  · have hmem : "<!DOCTYPE html>\n".data ∈ docChunks d := by
      unfold docChunks
      iterate 24 apply List.mem_append_left
      decide
    have hpre : "<!DOCTYPE html>".data <+: "<!DOCTYPE html>\n".data := by decide
    exact hpre.isInfix.trans (infix_flatten_of_mem hmem)
  · have hmem : "</html>".data ∈ docChunks d := by
      unfold docChunks
      apply List.mem_append_right
      decide
    exact infix_flatten_of_mem hmem

/-- C7 counterexample: the all-empty document has an empty-string name, yet
its rendered output nowhere contains "Your Name" — the renderer fills the
name slots with the escaped empty string, not the placeholder. -/
theorem c7_counterexample_no_placeholder :
    emptyDoc.name = [] ∧ ¬ "Your Name".data <:+: generate_html emptyDoc := by
  refine ⟨rfl, ?_⟩
  have hsplit : "Your Name".data = 'Y' :: "our Name".data := rfl
  rw [hsplit]
  exact no_pat_flatten emptyDoc_chunks_safe_yourname

/-- Modelled from the spec: derive the display value by stripping only a
LEADING "https://" or "http://" scheme prefix from the website, leaving the
rest of the string unchanged.  Stated solely for comparison against the
source's `website_display`. -/
def stripLeadingScheme (w : List Char) : List Char :=
  if "https://".data.isPrefixOf w then w.drop 8
  else if "http://".data.isPrefixOf w then w.drop 7
  else w

/-- A website URL with a second embedded scheme occurrence. -/
def c8Site : List Char := "https://a.com/?next=https://b.com".data

/-- C8 counterexample: on a URL with a second embedded "https://", the
source's display value (global `str.replace`) differs from the spec's
leading-prefix strip — the embedded occurrence is removed as well. -/
theorem c8_counterexample_not_leading_only :
    website_display c8Site ≠ stripLeadingScheme c8Site ∧
      website_display c8Site = "a.com/?next=b.com".data ∧
      stripLeadingScheme c8Site = "a.com/?next=https://b.com".data := by
  refine ⟨?_, by decide, by decide⟩
  decide

/-- C8 (amended): in every rendered document the escaped full URL is the
link target and the displayed text is the escaped result of removing EVERY
occurrence of "https://" and then of "http://" from contact.website (the
source's `website.replace('https://', '').replace('http://', '')`), not
just a leading scheme prefix. -/
theorem c8_website_link_and_display (d : ResumeDoc) :
    (∃ pre post, generate_html d =
        pre ++ "<a href=\"".data ++ escape_text d.contact.website ++
          "\">".data ++ escape_text (website_display d.contact.website) ++
          "</a>".data ++ post) ∧
      website_display c8Site = "a.com/?next=b.com".data := by
  constructor
  · refine ⟨tplSeg0.flatten ++ escape_text d.name ++ tplSeg1.flatten ++
      escape_text d.name ++ tplSeg2.flatten ++ escape_text d.subtitle ++
      tplSeg3.flatten ++ generate_experience_html d.experience ++
      tplSeg4.flatten ++ generate_projects_html d.projects ++ tplSeg5.flatten ++
      generate_education_html d.education ++
      "\n        </section>\n    </section>\n    <aside id=\"sidebar\">\n        <div class=\"side-block\" id=\"contact\">\n            <h1>Contact Info</h1>\n            <ul>\n                ".data,
      "\n                <li><i class=\"fa fa-envelope\"></i> <a href=\"mailto:".data ++
        escape_text d.contact.email ++ tplSeg9.flatten ++
        escape_text d.contact.email ++ tplSeg10.flatten ++
        escape_text d.contact.phone ++ tplSeg11.flatten ++
        generate_skills_html d.skills ++ tplSeg12.flatten, ?_⟩
    rw [generate_html_eq]
    have h6 : tplSeg6.flatten =
        "\n        </section>\n    </section>\n    <aside id=\"sidebar\">\n        <div class=\"side-block\" id=\"contact\">\n            <h1>Contact Info</h1>\n            <ul>\n                ".data ++
          "<a href=\"".data := by decide
    have h7 : tplSeg7.flatten = "\">".data := by decide
    have h8 : tplSeg8.flatten = "</a>".data ++
        "\n                <li><i class=\"fa fa-envelope\"></i> <a href=\"mailto:".data := by
      decide
    rw [h6, h7, h8]
    simp only [List.append_assoc]
  · decide

/-- Character class `[a-zA-Z0-9._%+-]` of `EMAIL_PATTERN`
(resume_builder.py:31, web_app.py:30). -/
def isLocalChar (c : Char) : Bool :=
  c.isAlpha || c.isDigit || c == '.' || c == '_' || c == '%' || c == '+' || c == '-'

/-- Character class `[a-zA-Z0-9.-]` of `EMAIL_PATTERN`. -/
def isDomainChar (c : Char) : Bool :=
  c.isAlpha || c.isDigit || c == '.' || c == '-'

/-- The part of `EMAIL_PATTERN` after the `@`: some split
`domain ++ "." ++ tld` with the domain nonempty and all in `[a-zA-Z0-9.-]`
and the tld of length at least 2, all in `[a-zA-Z]`, reaching the end.
Because the character before any valid alphabetic tld must be the dot, the
maximal alphabetic suffix is the only candidate tld, so checking that one
split is equivalent to the regex's backtracking search. -/
def emailTailOk (R : List Char) : Bool :=
  let rev := R.reverse
  let t := rev.takeWhile (fun c => c.isAlpha)
  let rest := rev.dropWhile (fun c => c.isAlpha)
  decide (2 ≤ t.length) && rest.head? == some '.' &&
    decide (1 ≤ rest.tail.length) && rest.tail.all isDomainChar

/-- Full-string match of `EMAIL_PATTERN` without the `$` newline allowance:
`local+ @ domain+ . alpha{2,}`.  The local class contains no `@`, so the
match, if any, splits the input at its first `@`. -/
def emailCore (s : List Char) : Bool :=
  let l := s.takeWhile (fun c => !(c == '@'))
  let r := s.dropWhile (fun c => !(c == '@'))
  match r with
  | [] => false
  | _ :: rest => decide (1 ≤ l.length) && l.all isLocalChar && emailTailOk rest

/-- `re.match(EMAIL_PATTERN, s)` as a Bool: the pattern is anchored with
`^...$`, and Python's `$` also matches just before one trailing newline. -/
def pyEmailMatch (s : List Char) : Bool :=
  emailCore s || (s.getLast? == some (Char.ofNat 10) && emailCore s.dropLast)

/-- `validate_email` (resume_builder.py:34-39, web_app.py:33-38) as its
acceptance predicate: falsy input passes; otherwise the regex must match
(on failure the source raises `ValueError`). -/
def validate_email (email : List Char) : Bool :=
  if email.isEmpty then true else pyEmailMatch email

/-- The error `validate_date` raises in resume_builder.py:50, if any. -/
def rbDateError (s : List Char) : Option (List Char) :=
  if validate_date s then none
  else some ("Invalid date format: ".data ++ s ++
    ". Use formats like 2024, Present, Jan 2024".data)

/-- `on_add_experience` (resume_builder.py:265-280) acting on the stored
document: both dates of the dialog's entry are validated before the entry
is appended; a `ValueError` leaves the document unchanged and shows the
message.  Returns the resulting document and the error shown, if any. -/
def on_add_experience (d : ResumeDoc) (e : ExperienceEntry) :
    ResumeDoc × Option (List Char) :=
  match rbDateError e.start_date with
  | some m => (d, some m)
  | none =>
    match rbDateError e.end_date with
    | some m => (d, some m)
    | none => ({ d with experience := d.experience ++ [e] }, none)

/-- The date strings `api_preview` validates, in the source's loop order
(web_app.py:438-445): start then end of each experience, then project,
then education entry. -/
def previewDates (d : ResumeDoc) : List (List Char) :=
  (d.experience.map fun e => [e.start_date, e.end_date]).flatten ++
    (d.projects.map fun e => [e.start_date, e.end_date]).flatten ++
    (d.education.map fun e => [e.start_date, e.end_date]).flatten

/-- `api_preview` (web_app.py:426-453) on a stored document of the data
model (such a dict is non-falsy, having its seven keys): empty name or
empty email short-circuit to errors; then the email and every entry date
are re-validated, the first `ValueError` becoming the response (with
web_app's own message, which lacks resume_builder's usage hint); only if
all checks pass is `generate_html` rendered and returned. -/
def api_preview (d : ResumeDoc) : Except (List Char) (List Char) :=
  if d.name.isEmpty then .error "Name is required".data
  else if d.contact.email.isEmpty then .error "Email is required".data
  else if pyEmailMatch d.contact.email = false then
    .error ("Invalid email format: ".data ++ d.contact.email)
  else
    match (previewDates d).find? (fun s => !validate_date s) with
    | some s => .error ("Invalid date format: ".data ++ s)
    | none => .ok (generate_html d)

/-- A stored document with valid name and email but an invalid stored
experience start date. -/
def c5Doc : ResumeDoc :=
  ⟨"Jane".data, [], ⟨[], "jane@example.com".data, []⟩,
   [⟨"Engineer".data, "Corp".data, [], "Not a date".data, "Present".data, []⟩],
   [], [], []⟩

def c5BadEntry : ExperienceEntry :=
  ⟨"E".data, "C".data, [], "Not a date".data, [], []⟩

def c5GoodEntry : ExperienceEntry :=
  ⟨"E".data, "C".data, [], "2020".data, "Present".data, []⟩

/-- A stored document passing every preview check. -/
def c5OkDoc : ResumeDoc :=
  ⟨"Jane".data, [], ⟨[], "jane@example.com".data, []⟩, [], [], [], []⟩

/-- C5 (amended): entry creation does block on failed date validation — an
experience entry with an invalid start or end date is never appended, and
one with valid dates is appended — but preview of a stored document does
NOT always render: `api_preview` re-validates the stored fields and
returns rendered HTML exactly when the name and email are nonempty, the
email matches the pattern, and every stored entry date validates. -/
theorem c5_creation_blocks_preview_revalidates :
    (∀ (d : ResumeDoc) (e : ExperienceEntry),
        validate_date e.start_date = false ∨ validate_date e.end_date = false →
          (on_add_experience d e).1 = d) ∧
      (∀ (d : ResumeDoc) (e : ExperienceEntry),
        validate_date e.start_date = true → validate_date e.end_date = true →
          (on_add_experience d e).1.experience = d.experience ++ [e]) ∧
      (∀ d : ResumeDoc, api_preview d = .ok (generate_html d) ↔
        (d.name ≠ [] ∧ d.contact.email ≠ [] ∧ pyEmailMatch d.contact.email = true ∧
          ∀ s ∈ previewDates d, validate_date s = true)) := by
  refine ⟨?_, ?_, ?_⟩
  · intro d e h
    rcases h with h | h
    · simp [on_add_experience, rbDateError, h]
    · cases hs : validate_date e.start_date
      · simp [on_add_experience, rbDateError, hs]
      · simp [on_add_experience, rbDateError, hs, h]
  · intro d e h1 h2
    simp [on_add_experience, rbDateError, h1, h2]
  · intro d
    constructor
    · intro h
      rw [api_preview] at h
      split_ifs at h with hn he hm
      rcases hfind : (previewDates d).find? (fun s => !validate_date s) with _ | s
      · refine ⟨fun hc => hn (by simp [hc]), fun hc => he (by simp [hc]), ?_, ?_⟩
        · cases hpm : pyEmailMatch d.contact.email
          · exact absurd hpm hm
          · rfl
        · intro s hs
          have := List.find?_eq_none.mp hfind s hs
          simpa using this
      · rw [hfind] at h
        exact absurd h (by simp)
    · rintro ⟨h1, h2, h3, h4⟩
      rw [api_preview]
      rw [if_neg (by simpa using h1), if_neg (by simpa using h2),
        if_neg (by simp [h3])]
      have hfind : (previewDates d).find? (fun s => !validate_date s) = none :=
        List.find?_eq_none.mpr fun s hs => by simp [h4 s hs]
      rw [hfind]

theorem c5_creation_blocks_preview_revalidates_witness :
    (on_add_experience emptyDoc c5BadEntry).1 = emptyDoc ∧
      (on_add_experience emptyDoc c5GoodEntry).1.experience =
        emptyDoc.experience ++ [c5GoodEntry] ∧
      api_preview c5OkDoc = .ok (generate_html c5OkDoc) :=
  ⟨c5_creation_blocks_preview_revalidates.1 emptyDoc c5BadEntry (Or.inl (by decide)),
   c5_creation_blocks_preview_revalidates.2.1 emptyDoc c5GoodEntry (by decide) (by decide),
   (c5_creation_blocks_preview_revalidates.2.2 c5OkDoc).mpr
     ⟨by decide, by decide, by decide, by decide⟩⟩

/-- C5 counterexample: a stored document with a nonempty name, a valid
email, and the stored experience start date "Not a date" is not rendered
by the preview endpoint — `api_preview` returns the validation error, so
preview of an already-stored document can block. -/
theorem c5_counterexample_preview_blocks :
    (∃ e ∈ c5Doc.experience, validate_date e.start_date = false) ∧
      api_preview c5Doc = .error "Invalid date format: Not a date".data := by
  refine ⟨⟨_, List.mem_cons_self _ _, by decide⟩, ?_⟩
  rfl

end ResumeBuilder
